import Mathlib

/-!
Shallow embedding of the rgba emulator core (src/cpu.rs, src/mem.rs):
the CPU state with mode banking, hardware/software interrupt entry, the
full-word (ARM) instruction dispatcher, the Thumb handlers cited by the
specification, the memory bus and the interrupt controller.  Machine
integers are modelled as Nat with explicit wrapping (% 2^32, % 2^16,
% 2^8); power-of-two bitmasks that only clear low bits are written with
subtraction of a remainder (x & !1 becomes x - x % 2, and so on), which
coincides with the Rust operation on all values the code passes.
-/

namespace Rgba

/-- Wrap to 32 bits: models u32 values / `as u32` casts. -/
def w32 (n : Nat) : Nat := n % 4294967296

/-- u32::wrapping_add. -/
def wadd (a b : Nat) : Nat := (a + b) % 4294967296

/-- u32::wrapping_sub (operands reduced mod 2^32 first). -/
def wsub (a b : Nat) : Nat :=
  (a % 4294967296 + 4294967296 - b % 4294967296) % 4294967296

/-- Reinterpret a u32 bit pattern as i32 (two's complement). -/
def toI32 (n : Nat) : Int :=
  if n % 4294967296 < 2147483648 then ((n % 4294967296 : Nat) : Int)
  else ((n % 4294967296 : Nat) : Int) - 4294967296

/-- Truncate an Int to a u32 bit pattern (two's complement, wrapping):
models `as u32` on signed values. -/
def ofI32 (i : Int) : Nat := (i % 4294967296).toNat

/-- u32::rotate_right (the rotation amount is taken mod 32, as in Rust). -/
def rotr32 (v n : Nat) : Nat :=
  let v := v % 4294967296
  let n := n % 32
  ((v >>> n) ||| (v <<< (32 - n))) % 4294967296

/-- u16::rotate_right (the rotation amount is taken mod 16, as in Rust). -/
def rotr16 (v n : Nat) : Nat :=
  let v := v % 65536
  let n := n % 16
  ((v >>> n) ||| (v <<< (16 - n))) % 65536

/-- `as i8 as i32 as u32`: sign-extend the low byte to 32 bits. -/
def sext8 (v : Nat) : Nat :=
  if v % 256 < 128 then v % 256 else v % 256 + 4294967040

/-- `as i16 as i32 as u32`: sign-extend the low half-word to 32 bits. -/
def sext16 (v : Nat) : Nat :=
  if v % 65536 < 32768 then v % 65536 else v % 65536 + 4294901760

/-- `(x as i32) < 0`: the sign bit of a u32 bit pattern. -/
def i32_neg (n : Nat) : Bool := decide (2147483648 ≤ n % 4294967296)

/-- `(x as i32) > 0` on u32 bit patterns. -/
def i32_pos (n : Nat) : Bool := decide (0 < toI32 n)

/-- `(a as i32) < (b as i32)` on u32 bit patterns. -/
def i32_lt (a b : Nat) : Bool := decide (toI32 a < toI32 b)

/-- x & 0xFFFFFFFE (clear bit 0 of a u32). -/
def clear_bit0 (v : Nat) : Nat := v % 4294967296 - v % 4294967296 % 2

/-- x & 0xFFFFFFFC (clear bits 1..0 of a u32). -/
def clear_bits10 (v : Nat) : Nat := v % 4294967296 - v % 4294967296 % 4

/-- Pointwise update of a Nat-indexed store (models an array write). -/
def upd (f : Nat → Nat) (k v : Nat) : Nat → Nat := fun i => if i = k then v else f i

/-- Bit-counting worker, structurally recursive on a fuel bound. -/
def count_ones_aux : Nat → Nat → Nat
  | 0, _ => 0
  | fuel + 1, n => if n = 0 then 0 else n % 2 + count_ones_aux fuel (n / 2)

/-- u16/u32::count_ones (popcount of a value of at most 32 bits). -/
def count_ones (n : Nat) : Nat := count_ones_aux 32 n

/-- Trailing-zero worker, structurally recursive on a fuel bound. -/
def tz_aux : Nat → Nat → Nat
  | 0, _ => 16
  | fuel + 1, n => if n = 0 then 16 else if n % 2 = 1 then 0 else 1 + tz_aux fuel (n / 2)

/-- u16::trailing_zeros (returns 16 on input 0, as in Rust). -/
def trailing_zeros16 (n : Nat) : Nat := tz_aux 16 n

/-- The union of the 14 defined Interrupt bitflags (bits 0..13). -/
def interrupt_all : Nat := 0x3FFF

/-- Interrupt::from_bits_truncate: keep only defined flag bits. -/
def from_bits_truncate (v : Nat) : Nat := v &&& interrupt_all

/-- InterruptController (src/mem.rs): IE / IE-alt / IF registers, master
enable and the in-handler latch. -/
structure InterruptController where
  ie : Nat
  ie_fp : Nat
  if_raw : Nat
  if_processed : Nat
  ime : Bool
  in_interrupt : Bool

namespace InterruptController

/-- InterruptController::new. -/
def new : InterruptController :=
  { ie := 0, ie_fp := 0, if_raw := 0, if_processed := 0, ime := false, in_interrupt := false }

/-- InterruptController::reset. -/
def reset (_ic : InterruptController) : InterruptController := new

/-- InterruptController::request (the argument is an Interrupt flags value,
already within the defined-flag universe in Rust). -/
def request (ic : InterruptController) (interrupt : Nat) : InterruptController :=
  { ic with if_raw := ic.if_raw ||| from_bits_truncate interrupt }

/-- InterruptController::get_pending. -/
def get_pending (ic : InterruptController) : Option Nat :=
  if !ic.ime then none
  else
    let pending := ic.ie &&& ic.if_raw
    if pending = 0 then none
    else some (from_bits_truncate (1 <<< trailing_zeros16 pending))

/-- InterruptController::acknowledge. -/
def acknowledge (ic : InterruptController) (interrupt : Nat) : InterruptController :=
  { ic with if_raw := ic.if_raw &&& (interrupt_all ^^^ from_bits_truncate interrupt),
            if_processed := ic.if_processed &&& (interrupt_all ^^^ from_bits_truncate interrupt) }

/-- InterruptController::should_take_interrupt. -/
def should_take_interrupt (ic : InterruptController) : Bool :=
  if !ic.ime || ic.in_interrupt then false
  else ic.ie &&& ic.if_raw != 0

/-- InterruptController::enter_interrupt. -/
def enter_interrupt (ic : InterruptController) : InterruptController :=
  { ic with in_interrupt := true, ime := false }

/-- InterruptController::exit_interrupt. -/
def exit_interrupt (ic : InterruptController) : InterruptController :=
  { ic with in_interrupt := false, ime := true }

/-- InterruptController::read_register. -/
def read_register (ic : InterruptController) (offset : Nat) : Nat :=
  if offset = 0x000 then ic.ie
  else if offset = 0x002 then ic.if_raw
  else if offset = 0x200 then ic.ie_fp
  else if offset = 0x208 then (if ic.ime then 1 else 0)
  else 0

/-- InterruptController::write_register.  Offset 0x002 has write-1-to-clear
semantics; the bitflags complement `!flags` stays inside the defined-flag
universe, hence the xor with interrupt_all. -/
def write_register (ic : InterruptController) (offset val : Nat) : InterruptController :=
  if offset = 0x000 then { ic with ie := from_bits_truncate val }
  else if offset = 0x002 then
    { ic with if_raw := ic.if_raw &&& (interrupt_all ^^^ from_bits_truncate val),
              if_processed := ic.if_processed &&& (interrupt_all ^^^ from_bits_truncate val) }
  else if offset = 0x200 then { ic with ie_fp := from_bits_truncate val }
  else if offset = 0x208 then { ic with ime := val != 0 }
  else ic

end InterruptController

/-- The memory regions of the address map (src/mem.rs MemoryRegion; the Rust
Io variant is spelled IoRegs here). -/
inductive MemoryRegion where
  | Bios
  | Wram
  | Iwram
  | IoRegs
  | Palette
  | Vram
  | Oam
  | Rom
  | Unknown
deriving DecidableEq

/-- The GBA memory system (src/mem.rs Memory).  Byte arrays are modelled as
Nat-indexed stores (the Rust io field is spelled ioregs here); the cartridge
image keeps its length, which the mirroring logic uses. -/
structure Memory where
  bios : Nat → Nat
  wram : Nat → Nat
  iwram : Nat → Nat
  ioregs : Nat → Nat
  palette : Nat → Nat
  vram : Nat → Nat
  oam : Nat → Nat
  rom : List Nat
  waitcnt : Nat
  interrupt : InterruptController

/-- The BIOS stub image built by Memory::new: a branch to 0x08000004 at the
reset vector, BX LR return stubs at four fixed call points, ARM NOPs
(0xE1A00000, little endian) everywhere else. -/
def bios_init : Nat → Nat := fun i =>
  if i = 0 then 0x3E
  else if i = 1 then 0x00
  else if i = 2 then 0x00
  else if i = 3 then 0xEA
  else if i = 0x164 ∨ i = 0x17C ∨ i = 0x200 ∨ i = 0x208 then 0x1E
  else if i = 0x165 ∨ i = 0x17D ∨ i = 0x201 ∨ i = 0x209 then 0xFF
  else if i = 0x166 ∨ i = 0x17E ∨ i = 0x202 ∨ i = 0x20A then 0x2F
  else if i = 0x167 ∨ i = 0x17F ∨ i = 0x203 ∨ i = 0x20B then 0xE1
  else if i % 4 = 0 then 0x00
  else if i % 4 = 1 then 0x00
  else if i % 4 = 2 then 0xA0
  else 0xE1

namespace Memory

/-- Memory::new. -/
def new : Memory :=
  { bios := bios_init, wram := fun _ => 0, iwram := fun _ => 0, ioregs := fun _ => 0,
    palette := fun _ => 0, vram := fun _ => 0, oam := fun _ => 0, rom := [],
    waitcnt := 0, interrupt := InterruptController.new }

/-- Memory::reset (BIOS and ROM are kept, everything else cleared). -/
def reset (m : Memory) : Memory :=
  { m with wram := fun _ => 0, iwram := fun _ => 0, ioregs := fun _ => 0,
           palette := fun _ => 0, vram := fun _ => 0, oam := fun _ => 0,
           waitcnt := 0, interrupt := m.interrupt.reset }

/-- Memory::load_rom. -/
def load_rom (m : Memory) (data : List Nat) : Memory := { m with rom := data }

/-- Memory::has_bios: true when some BIOS byte is non-zero.  (Irreducible
only to keep elaboration from scanning the 16 KiB range on symbolic
states; the kernel still evaluates it on concrete ones.) -/
@[irreducible] def has_bios (m : Memory) : Bool :=
  (List.range 0x4000).any fun i => m.bios i % 256 != 0

/-- Memory::map_address: address decoding with mirroring.  Bit masks that
are all-ones (0x3FFFF, 0x7FFF, 0x3FF) and the non-contiguous VRAM mask
0x17FFF are kept as land operations. -/
def map_address (m : Memory) (addr : Nat) : MemoryRegion × Nat :=
  if addr ≤ 0x3FFF then (.Bios, addr)
  else if 0x02000000 ≤ addr ∧ addr ≤ 0x020FFFFF then (.Wram, (addr - 0x02000000) &&& 0x3FFFF)
  else if 0x03000000 ≤ addr ∧ addr ≤ 0x030FFFFF then (.Iwram, (addr - 0x03000000) &&& 0x7FFF)
  else if 0x04000000 ≤ addr ∧ addr ≤ 0x040003FE then (.IoRegs, addr - 0x04000000)
  else if 0x05000000 ≤ addr ∧ addr ≤ 0x050003FF then (.Palette, addr - 0x05000000)
  else if 0x05000400 ≤ addr ∧ addr ≤ 0x050FFFFF then (.Palette, (addr - 0x05000000) &&& 0x3FF)
  else if 0x06000000 ≤ addr ∧ addr ≤ 0x060FFFFF then (.Vram, (addr - 0x06000000) &&& 0x17FFF)
  else if 0x07000000 ≤ addr ∧ addr ≤ 0x070003FF then (.Oam, addr - 0x07000000)
  else if 0x07000400 ≤ addr ∧ addr ≤ 0x070FFFFF then (.Oam, (addr - 0x07000000) &&& 0x3FF)
  else if 0x08000000 ≤ addr ∧ addr ≤ 0x09FFFFFF then (.Rom, (addr - 0x08000000) % max m.rom.length 1)
  else if 0x0A000000 ≤ addr ∧ addr ≤ 0x0BFFFFFF then (.Rom, (addr - 0x0A000000) % max m.rom.length 1)
  else if 0x0C000000 ≤ addr ∧ addr ≤ 0x0DFFFFFF then (.Rom, (addr - 0x0C000000) % max m.rom.length 1)
  else (.Unknown, 0)

/-- Memory::read_io (spelled read_ioreg): IE/IF/IME are served from the
interrupt controller; DISPCNT reads with bit 7 forced; key-input reads as
all-released. -/
def read_ioreg (m : Memory) (addr : Nat) : Nat :=
  let offset := addr - 0x04000000
  let int_sel : Option Nat × Nat :=
    if addr = 0x04000200 ∨ addr = 0x04000201 then (some 0x200, addr % 2)
    else if addr = 0x04000202 ∨ addr = 0x04000203 then (some 0x202, addr % 2)
    else if addr = 0x04000208 then (some 0x208, 0)
    else (none, 0)
  match int_sel with
  | (some ioff, byte_index) =>
      let val := m.interrupt.read_register ioff
      if ioff = 0x208 then val % 256 else (val >>> (8 * byte_index)) % 256
  | (none, _) =>
      if offset = 0x000 then m.ioregs offset ||| 0x80
      else if offset = 0x004 then m.ioregs offset
      else if offset = 0x006 then m.ioregs offset
      else if offset = 0x130 then 0xFF
      else if offset = 0x131 then 0xFF
      else m.ioregs offset

/-- Memory::write_io (spelled write_ioreg): interrupt registers go through a
read-modify-write of the controller; 0x204 updates WAITCNT; everything else
stores into the register block. -/
def write_ioreg (m : Memory) (addr val : Nat) : Memory :=
  let offset := addr - 0x04000000
  let int_sel : Option Nat × Nat :=
    if addr = 0x04000200 ∨ addr = 0x04000201 then (some 0x200, addr % 2)
    else if addr = 0x04000202 ∨ addr = 0x04000203 then (some 0x202, addr % 2)
    else if addr = 0x04000208 then (some 0x208, 0)
    else (none, 0)
  match int_sel with
  | (some ioff, byte_index) =>
      let current := m.interrupt.read_register ioff
      let new_val :=
        if ioff = 0x208 then val
        else (current &&& (0xFFFF ^^^ (0xFF <<< (8 * byte_index)))) ||| (val <<< (8 * byte_index))
      { m with interrupt := m.interrupt.write_register ioff new_val }
  | (none, _) =>
      if offset = 0x204 then { m with waitcnt := val ||| (m.ioregs (offset + 1) <<< 8) }
      else { m with ioregs := upd m.ioregs offset val }

/-- Memory::read_byte; the result is a u8 (hence the final mask). -/
def read_byte (m : Memory) (addr : Nat) : Nat :=
  (match m.map_address addr with
   | (.Bios, offset) => m.bios offset
   | (.Wram, offset) => m.wram offset
   | (.Iwram, offset) => m.iwram offset
   | (.IoRegs, _) => m.read_ioreg addr
   | (.Palette, offset) => m.palette offset
   | (.Vram, offset) => m.vram offset
   | (.Oam, offset) => m.oam offset
   | (.Rom, offset) => if m.rom.isEmpty then 0 else m.rom.getD (offset % m.rom.length) 0
   | (.Unknown, _) => 0) % 256

/-- Memory::write_byte_internal (val is a u8 parameter, hence the mask). -/
def write_byte_internal (m : Memory) (addr val : Nat) : Memory :=
  let val := val % 256
  match m.map_address addr with
  | (.Bios, _) => m
  | (.Wram, offset) => { m with wram := upd m.wram offset val }
  | (.Iwram, offset) => { m with iwram := upd m.iwram offset val }
  | (.IoRegs, _) => m.write_ioreg addr val
  | (.Palette, offset) => { m with palette := upd m.palette offset val }
  | (.Vram, offset) => { m with vram := upd m.vram offset val }
  | (.Oam, offset) => { m with oam := upd m.oam offset val }
  | (.Rom, _) => m
  | (.Unknown, _) => m

/-- Memory::write_byte: OAM ignores byte writes; VRAM and palette byte
writes are expanded to the containing half-word with the byte duplicated. -/
def write_byte (m : Memory) (addr val : Nat) : Memory :=
  let rp := m.map_address addr
  if rp.1 = MemoryRegion.Oam then m
  else if rp.1 = MemoryRegion.Vram then
    let half_offset := rp.2 - rp.2 % 2
    let half_val := (((val % 256) <<< 8) ||| (val % 256)) % 65536
    { m with vram := upd (upd m.vram half_offset (half_val &&& 0xFF))
                         (half_offset + 1) ((half_val >>> 8) &&& 0xFF) }
  else if rp.1 = MemoryRegion.Palette then
    let half_offset := rp.2 - rp.2 % 2
    let half_val := (((val % 256) <<< 8) ||| (val % 256)) % 65536
    { m with palette := upd (upd m.palette half_offset (half_val &&& 0xFF))
                            (half_offset + 1) ((half_val >>> 8) &&& 0xFF) }
  else m.write_byte_internal addr val

/-- Memory::read_half.  On an odd address, palette/VRAM/OAM are read as the
aligned pair from the region array, any other region reads the bytes at addr
and addr + 1; the result is rotated right by 8 * (addr & 1) bits. -/
def read_half (m : Memory) (addr : Nat) : Nat :=
  if addr % 2 ≠ 0 then
    let rp := m.map_address (addr - addr % 2)
    let val :=
      if rp.1 = MemoryRegion.Palette then (m.palette rp.2 % 256) ||| ((m.palette (rp.2 + 1) % 256) <<< 8)
      else if rp.1 = MemoryRegion.Vram then (m.vram rp.2 % 256) ||| ((m.vram (rp.2 + 1) % 256) <<< 8)
      else if rp.1 = MemoryRegion.Oam then (m.oam rp.2 % 256) ||| ((m.oam (rp.2 + 1) % 256) <<< 8)
      else (m.read_byte addr) ||| ((m.read_byte (addr + 1)) <<< 8)
    rotr16 val (8 * (addr % 2))
  else
    (m.read_byte addr) ||| ((m.read_byte (addr + 1)) <<< 8)

/-- Memory::write_half: the two little-endian bytes are written at the
literal addresses addr and addr + 1. -/
def write_half (m : Memory) (addr val : Nat) : Memory :=
  let v := val % 65536
  (m.write_byte_internal addr (v % 256)).write_byte_internal (addr + 1) ((v >>> 8) % 256)

/-- Memory::read_word.  A misaligned address reads the two aligned
half-words and rotates right by 8 bits per byte of misalignment; an aligned
address composes the four bytes. -/
def read_word (m : Memory) (addr : Nat) : Nat :=
  if addr % 4 ≠ 0 then
    let aligned := addr - addr % 4
    let low := m.read_half aligned
    let high := m.read_half ((aligned + 2) % 4294967296)
    rotr32 (low ||| (high <<< 16)) (8 * (addr % 4))
  else
    (m.read_byte addr) ||| ((m.read_byte ((addr + 1) % 4294967296)) <<< 8)
      ||| ((m.read_byte ((addr + 2) % 4294967296)) <<< 16)
      ||| ((m.read_byte ((addr + 3) % 4294967296)) <<< 24)

/-- Memory::write_word: the four little-endian bytes are written at the
literal addresses addr .. addr + 3 (wrapping), with no rotation. -/
def write_word (m : Memory) (addr val : Nat) : Memory :=
  let v := val % 4294967296
  let m := m.write_byte_internal addr (v % 256)
  let m := m.write_byte_internal ((addr + 1) % 4294967296) ((v >>> 8) % 256)
  let m := m.write_byte_internal ((addr + 2) % 4294967296) ((v >>> 16) % 256)
  m.write_byte_internal ((addr + 3) % 4294967296) ((v >>> 24) % 256)

end Memory

/-- Processor operating modes (src/cpu.rs Mode). -/
inductive Mode where
  | User
  | Fiq
  | Irq
  | Supervisor
  | Abort
  | Undefined
  | System
deriving DecidableEq

/-- The numeric mode field value (the Rust enum discriminant). -/
def Mode.val : Mode → Nat
  | .User => 0b10000
  | .Fiq => 0b10001
  | .Irq => 0b10010
  | .Supervisor => 0b10011
  | .Abort => 0b10111
  | .Undefined => 0b11011
  | .System => 0b11111

/-- Mode::from_bits (unknown patterns decode to System). -/
def Mode.from_bits (bits : Nat) : Mode :=
  let b := bits &&& 0x1F
  if b = 0b10000 then .User
  else if b = 0b10001 then .Fiq
  else if b = 0b10010 then .Irq
  else if b = 0b10011 then .Supervisor
  else if b = 0b10111 then .Abort
  else if b = 0b11011 then .Undefined
  else .System

/-- The ARM7TDMI CPU state (src/cpu.rs Cpu): sixteen general registers, the
FIQ bank for R8..R12, the six-slot SP/LR/SPSR banks, the CPSR and the
three-stage prefetch pipeline. -/
structure Cpu where
  r : Nat → Nat
  banked_r8_fiq : Nat
  banked_r9_fiq : Nat
  banked_r10_fiq : Nat
  banked_r11_fiq : Nat
  banked_r12_fiq : Nat
  banked_sp : Nat → Nat
  banked_lr : Nat → Nat
  banked_spsr : Nat → Nat
  cpsr : Nat
  pipeline : Nat → Nat
  pipeline_pc : Nat → Nat
  pipeline_loaded : Bool

namespace Cpu

/-- Cpu::new (System mode, everything else zero). -/
def new : Cpu :=
  { r := fun _ => 0, banked_r8_fiq := 0, banked_r9_fiq := 0, banked_r10_fiq := 0,
    banked_r11_fiq := 0, banked_r12_fiq := 0, banked_sp := fun _ => 0,
    banked_lr := fun _ => 0, banked_spsr := fun _ => 0, cpsr := 0x0000001F,
    pipeline := fun _ => 0, pipeline_pc := fun _ => 0, pipeline_loaded := false }

/-- Cpu::reset: System mode with IRQ/FIQ disabled and ARM state
(CPSR = 0xDF), SP = 0x03007F00, LR = 0x08000004, PC = 0x08000000, all other
registers and banks cleared. -/
def reset (_cpu : Cpu) : Cpu :=
  { r := upd (upd (upd (fun _ => 0) 13 0x03007F00) 14 0x08000004) 15 0x08000000,
    banked_r8_fiq := 0, banked_r9_fiq := 0, banked_r10_fiq := 0,
    banked_r11_fiq := 0, banked_r12_fiq := 0, banked_sp := fun _ => 0,
    banked_lr := fun _ => 0, banked_spsr := fun _ => 0, cpsr := 0x000000DF,
    pipeline := fun _ => 0, pipeline_pc := fun _ => 0, pipeline_loaded := false }

/-- Cpu::get_reg. -/
def get_reg (cpu : Cpu) (n : Nat) : Nat := cpu.r n

/-- Cpu::set_reg. -/
def set_reg (cpu : Cpu) (n val : Nat) : Cpu := { cpu with r := upd cpu.r n val }

/-- Cpu::get_sp. -/
def get_sp (cpu : Cpu) : Nat := cpu.r 13

/-- Cpu::set_sp. -/
def set_sp (cpu : Cpu) (val : Nat) : Cpu := { cpu with r := upd cpu.r 13 val }

/-- Cpu::get_lr. -/
def get_lr (cpu : Cpu) : Nat := cpu.r 14

/-- Cpu::set_lr. -/
def set_lr (cpu : Cpu) (val : Nat) : Cpu := { cpu with r := upd cpu.r 14 val }

/-- Cpu::get_pc. -/
def get_pc (cpu : Cpu) : Nat := cpu.r 15

/-- Cpu::get_cpsr. -/
def get_cpsr (cpu : Cpu) : Nat := cpu.cpsr

/-- Cpu::set_pc: stores val & 0xFFFFFFFC (word aligned) and flushes the
pipeline. -/
def set_pc (cpu : Cpu) (val : Nat) : Cpu :=
  { cpu with r := upd cpu.r 15 (clear_bits10 val), pipeline_loaded := false }

/-- Cpu::get_mode. -/
def get_mode (cpu : Cpu) : Mode := Mode.from_bits cpu.cpsr

/-- Cpu::mode_index: the bank slot of each mode (System and User share
slot 5). -/
def mode_index : Mode → Nat
  | .Fiq => 0
  | .Irq => 1
  | .Supervisor => 2
  | .Abort => 3
  | .Undefined => 4
  | .System => 5
  | .User => 5

/-- Cpu::get_spsr: the banked slot of the current mode when its index is
below 6, the live CPSR otherwise. -/
def get_spsr (cpu : Cpu) : Nat :=
  let idx := mode_index cpu.get_mode
  if idx < 6 then cpu.banked_spsr idx else cpu.cpsr

/-- Cpu::set_spsr. -/
def set_spsr (cpu : Cpu) (val : Nat) : Cpu :=
  let idx := mode_index cpu.get_mode
  if idx < 6 then { cpu with banked_spsr := upd cpu.banked_spsr idx val } else cpu

/-- Cpu::set_mode: save the departing mode's SP/LR/SPSR bank, rewrite the
CPSR mode field, load the arriving bank, and swap R8..R12 when entering or
leaving FIQ. -/
def set_mode (cpu : Cpu) (mode : Mode) : Cpu :=
  let current := cpu.get_mode
  if current = mode then cpu
  else
    let idx := mode_index current
    let cpu1 :=
      if idx < 6 then
        { cpu with banked_sp := upd cpu.banked_sp idx (cpu.r 13),
                   banked_lr := upd cpu.banked_lr idx (cpu.r 14),
                   banked_spsr := upd cpu.banked_spsr idx cpu.get_spsr }
      else cpu
    let idx2 := mode_index mode
    let cpu2 := { cpu1 with cpsr := (cpu1.cpsr &&& 0xFFFFFFE0) ||| mode.val }
    let cpu3 :=
      if idx2 < 6 then
        { cpu2 with r := upd (upd cpu2.r 13 (cpu2.banked_sp idx2)) 14 (cpu2.banked_lr idx2) }
      else cpu2
    if mode = Mode.Fiq then
      { cpu3 with banked_r8_fiq := cpu3.r 8, banked_r9_fiq := cpu3.r 9,
                  banked_r10_fiq := cpu3.r 10, banked_r11_fiq := cpu3.r 11,
                  banked_r12_fiq := cpu3.r 12 }
    else if current = Mode.Fiq then
      { cpu3 with r := upd (upd (upd (upd (upd cpu3.r 8 cpu3.banked_r8_fiq)
                      9 cpu3.banked_r9_fiq) 10 cpu3.banked_r10_fiq)
                      11 cpu3.banked_r11_fiq) 12 cpu3.banked_r12_fiq }
    else cpu3

/-- Cpu::get_flag_n (CPSR bit 31). -/
def get_flag_n (cpu : Cpu) : Bool := cpu.cpsr &&& 0x80000000 != 0

/-- Cpu::set_flag_n. -/
def set_flag_n (cpu : Cpu) (val : Bool) : Cpu :=
  if val then { cpu with cpsr := cpu.cpsr ||| 0x80000000 }
  else { cpu with cpsr := cpu.cpsr &&& 0x7FFFFFFF }

/-- Cpu::get_flag_z (CPSR bit 30). -/
def get_flag_z (cpu : Cpu) : Bool := cpu.cpsr &&& 0x40000000 != 0

/-- Cpu::set_flag_z. -/
def set_flag_z (cpu : Cpu) (val : Bool) : Cpu :=
  if val then { cpu with cpsr := cpu.cpsr ||| 0x40000000 }
  else { cpu with cpsr := cpu.cpsr &&& 0xBFFFFFFF }

/-- Cpu::get_flag_c (CPSR bit 29). -/
def get_flag_c (cpu : Cpu) : Bool := cpu.cpsr &&& 0x20000000 != 0

/-- Cpu::set_flag_c. -/
def set_flag_c (cpu : Cpu) (val : Bool) : Cpu :=
  if val then { cpu with cpsr := cpu.cpsr ||| 0x20000000 }
  else { cpu with cpsr := cpu.cpsr &&& 0xDFFFFFFF }

/-- Cpu::get_flag_v (CPSR bit 28). -/
def get_flag_v (cpu : Cpu) : Bool := cpu.cpsr &&& 0x10000000 != 0

/-- Cpu::set_flag_v. -/
def set_flag_v (cpu : Cpu) (val : Bool) : Cpu :=
  if val then { cpu with cpsr := cpu.cpsr ||| 0x10000000 }
  else { cpu with cpsr := cpu.cpsr &&& 0xEFFFFFFF }

/-- Cpu::is_thumb_mode (CPSR bit 5). -/
def is_thumb_mode (cpu : Cpu) : Bool := cpu.cpsr &&& 0x20 != 0

/-- Cpu::set_thumb_mode. -/
def set_thumb_mode (cpu : Cpu) (thumb : Bool) : Cpu :=
  if thumb then { cpu with cpsr := cpu.cpsr ||| 0x20 }
  else { cpu with cpsr := cpu.cpsr &&& 0xFFFFFFDF }

/-- Cpu::are_interrupts_enabled (CPSR bit 7 clear). -/
def are_interrupts_enabled (cpu : Cpu) : Bool := cpu.cpsr &&& 0x80 == 0

/-- Cpu::set_interrupts_enabled. -/
def set_interrupts_enabled (cpu : Cpu) (enabled : Bool) : Cpu :=
  if enabled then { cpu with cpsr := cpu.cpsr &&& 0xFFFFFF7F }
  else { cpu with cpsr := cpu.cpsr ||| 0x80 }

/-- Cpu::take_interrupt: switch to IRQ mode, LR := return address - 4,
store the pre-entry CPSR into banked_spsr slot 2 (the source comments this
as the IRQ bank index), set the IRQ-disable bit, jump to vector 0x18. -/
def take_interrupt (cpu : Cpu) (_mem : Memory) : Cpu :=
  let old_cpsr := cpu.cpsr
  let ret_addr := cpu.get_pc
  let cpu := cpu.set_mode Mode.Irq
  let cpu := cpu.set_lr (wsub ret_addr 4)
  let cpu := { cpu with banked_spsr := upd cpu.banked_spsr 2 old_cpsr }
  let cpu := { cpu with cpsr := cpu.cpsr ||| 0x80 }
  let cpu := cpu.set_pc 0x00000018
  { cpu with pipeline_loaded := false }

/-- Cpu::check_condition: the 14 ARM condition codes plus AL; 0xF is
treated as never. -/
def check_condition (cpu : Cpu) (cond : Nat) : Bool :=
  if cond = 0x0 then cpu.get_flag_z
  else if cond = 0x1 then !cpu.get_flag_z
  else if cond = 0x2 then cpu.get_flag_c
  else if cond = 0x3 then !cpu.get_flag_c
  else if cond = 0x4 then cpu.get_flag_n
  else if cond = 0x5 then !cpu.get_flag_n
  else if cond = 0x6 then cpu.get_flag_v
  else if cond = 0x7 then !cpu.get_flag_v
  else if cond = 0x8 then cpu.get_flag_c && !cpu.get_flag_z
  else if cond = 0x9 then !(cpu.get_flag_c && !cpu.get_flag_z)
  else if cond = 0xA then cpu.get_flag_n == cpu.get_flag_v
  else if cond = 0xB then cpu.get_flag_n != cpu.get_flag_v
  else if cond = 0xC then !cpu.get_flag_z && (cpu.get_flag_n == cpu.get_flag_v)
  else if cond = 0xD then cpu.get_flag_z || (cpu.get_flag_n != cpu.get_flag_v)
  else if cond = 0xE then true
  else false

end Cpu

/-- Bitwise complement of a u32 value (`!x` in Rust). -/
def not32 (v : Nat) : Nat := 4294967295 - v % 4294967296

namespace Cpu

/-- Cpu::set_flags_from_result: N from the sign bit, Z from a zero result. -/
def set_flags_from_result (cpu : Cpu) (result : Nat) : Cpu :=
  (cpu.set_flag_n (i32_neg result)).set_flag_z (result == 0)

/-- Cpu::decode_operand2: rotated 8-bit immediate, or a register shifted by
LSL/LSR/ASR/ROR with the amount from the shift field. -/
def decode_operand2 (cpu : Cpu) (operand2 : Nat) (is_immediate : Bool) : Nat :=
  let shift := (operand2 >>> 4) &&& 0xFF
  if is_immediate then
    rotr32 (operand2 &&& 0xFF) (((operand2 >>> 8) &&& 0xF) * 2)
  else
    let rm := operand2 &&& 0xF
    let val := cpu.r rm
    let shift_type := (shift >>> 1) &&& 0x3
    let amount := shift >>> 3
    if shift_type = 0 then (val <<< amount) % 4294967296
    else if shift_type = 1 then val >>> amount
    else if shift_type = 2 then ofI32 (toI32 val >>> amount)
    else rotr32 val amount

/-- The common tail of Cpu::execute_arm_data_processing: a result written to
R15 by ops 0x0..0x7 branches (with a possible state switch from bit 0),
otherwise the PC advances by 4.  Every path returns 1 cycle. -/
def dp_finish (cpu : Cpu) (mem : Memory) (rd op : Nat) : Cpu × Memory × Nat :=
  if rd = 15 ∧ op < 0x8 then
    let result := cpu.r 15
    let thumb := result &&& 1 != 0
    ((cpu.set_pc (clear_bit0 result)).set_thumb_mode thumb, mem, 1)
  else ({ cpu with r := upd cpu.r 15 (wadd (cpu.r 15) 4) }, mem, 1)

/-- Cpu::execute_arm_data_processing: the sixteen ALU operations with the
flag rules of the source. -/
def execute_arm_data_processing (cpu : Cpu) (opcode : Nat) (mem : Memory) : Cpu × Memory × Nat :=
  let op := (opcode >>> 21) &&& 0xF
  let s := ((opcode >>> 20) &&& 1) != 0
  let rn := (opcode >>> 16) &&& 0xF
  let rd := (opcode >>> 12) &&& 0xF
  let operand2 := opcode &&& 0xFFF
  let i_bit := ((opcode >>> 25) &&& 1) != 0
  let rn_val := cpu.r rn
  let op2_val := cpu.decode_operand2 operand2 i_bit
  if op = 0x0 then
    let result := rn_val &&& op2_val
    let cpu := { cpu with r := upd cpu.r rd result }
    dp_finish (if s then cpu.set_flags_from_result result else cpu) mem rd op
  else if op = 0x1 then
    let result := rn_val ^^^ op2_val
    let cpu := { cpu with r := upd cpu.r rd result }
    dp_finish (if s then cpu.set_flags_from_result result else cpu) mem rd op
  else if op = 0x2 then
    let result := wsub rn_val op2_val
    let overflow := decide (rn_val % 4294967296 < op2_val % 4294967296)
    let cpu := { cpu with r := upd cpu.r rd result }
    let cpu :=
      if s then
        (((cpu.set_flag_n (i32_neg result)).set_flag_z (result == 0)).set_flag_c
          (!overflow)).set_flag_v ((i32_lt rn_val op2_val) != (i32_neg result))
      else cpu
    dp_finish cpu mem rd op
  else if op = 0x3 then
    let result := wsub op2_val rn_val
    let overflow := decide (op2_val % 4294967296 < rn_val % 4294967296)
    let cpu := { cpu with r := upd cpu.r rd result }
    let cpu :=
      if s then
        (((cpu.set_flag_n (i32_neg result)).set_flag_z (result == 0)).set_flag_c
          (!overflow)).set_flag_v ((i32_lt op2_val rn_val) != (i32_neg result))
      else cpu
    dp_finish cpu mem rd op
  else if op = 0x4 then
    let result := wadd rn_val op2_val
    let overflow := decide (4294967296 ≤ rn_val % 4294967296 + op2_val % 4294967296)
    let cpu := { cpu with r := upd cpu.r rd result }
    let cpu :=
      if s then
        (((cpu.set_flag_n (i32_neg result)).set_flag_z (result == 0)).set_flag_c
          overflow).set_flag_v
            ((i32_pos rn_val && i32_pos op2_val && i32_neg result)
              || (i32_neg rn_val && i32_neg op2_val && i32_pos result))
      else cpu
    dp_finish cpu mem rd op
  else if op = 0x5 then
    let c := if cpu.get_flag_c then 1 else 0
    let result1 := wadd rn_val op2_val
    let overflow1 := decide (4294967296 ≤ rn_val % 4294967296 + op2_val % 4294967296)
    let result := wadd result1 c
    let overflow2 := decide (4294967296 ≤ result1 + c)
    let cpu := { cpu with r := upd cpu.r rd result }
    let cpu :=
      if s then
        (((cpu.set_flag_n (i32_neg result)).set_flag_z (result == 0)).set_flag_c
          (overflow1 || overflow2)).set_flag_v
            ((i32_pos rn_val && i32_pos op2_val) || i32_neg result)
      else cpu
    dp_finish cpu mem rd op
  else if op = 0x6 then
    let c := if cpu.get_flag_c then 0 else 1
    let borrow := wadd op2_val c
    let result := wsub rn_val borrow
    let overflow := decide (rn_val % 4294967296 < borrow)
    let cpu := { cpu with r := upd cpu.r rd result }
    let cpu :=
      if s then
        (((cpu.set_flag_n (i32_neg result)).set_flag_z (result == 0)).set_flag_c
          (!overflow)).set_flag_v ((i32_lt rn_val borrow) != (i32_neg result))
      else cpu
    dp_finish cpu mem rd op
  else if op = 0x7 then
    let c := if cpu.get_flag_c then 0 else 1
    let borrow := wadd rn_val c
    let result := wsub op2_val borrow
    let overflow := decide (op2_val % 4294967296 < borrow)
    let cpu := { cpu with r := upd cpu.r rd result }
    let cpu :=
      if s then
        (((cpu.set_flag_n (i32_neg result)).set_flag_z (result == 0)).set_flag_c
          (!overflow)).set_flag_v ((i32_lt op2_val borrow) != (i32_neg result))
      else cpu
    dp_finish cpu mem rd op
  else if op = 0x8 then
    dp_finish (cpu.set_flags_from_result (rn_val &&& op2_val)) mem rd op
  else if op = 0x9 then
    dp_finish (cpu.set_flags_from_result (rn_val ^^^ op2_val)) mem rd op
  else if op = 0xA then
    let result := wsub rn_val op2_val
    let overflow := decide (rn_val % 4294967296 < op2_val % 4294967296)
    let cpu :=
      (((cpu.set_flag_n (i32_neg result)).set_flag_z (result == 0)).set_flag_c
        (!overflow)).set_flag_v ((i32_lt rn_val op2_val) != (i32_neg result))
    dp_finish cpu mem rd op
  else if op = 0xB then
    let result := wadd rn_val op2_val
    let overflow := decide (4294967296 ≤ rn_val % 4294967296 + op2_val % 4294967296)
    let cpu :=
      (((cpu.set_flag_n (i32_neg result)).set_flag_z (result == 0)).set_flag_c
        overflow).set_flag_v
          ((i32_pos rn_val && i32_pos op2_val && i32_neg result)
            || (i32_neg rn_val && i32_neg op2_val && i32_pos result))
    dp_finish cpu mem rd op
  else if op = 0xC then
    let result := rn_val ||| op2_val
    let cpu := { cpu with r := upd cpu.r rd result }
    dp_finish (if s then cpu.set_flags_from_result result else cpu) mem rd op
  else if op = 0xD then
    if rd = 15 then
      let thumb := op2_val &&& 1 != 0
      let cpu := cpu.set_pc (clear_bit0 op2_val)
      let cpu := if s then cpu.set_flags_from_result op2_val else cpu
      (cpu.set_thumb_mode thumb, mem, 1)
    else
      let cpu := { cpu with r := upd cpu.r rd op2_val }
      dp_finish (if s then cpu.set_flags_from_result op2_val else cpu) mem rd op
  else if op = 0xE then
    let result := rn_val &&& not32 op2_val
    let cpu := { cpu with r := upd cpu.r rd result }
    dp_finish (if s then cpu.set_flags_from_result result else cpu) mem rd op
  else
    let cpu := { cpu with r := upd cpu.r rd (not32 op2_val) }
    dp_finish (if s then cpu.set_flags_from_result (not32 op2_val) else cpu) mem rd op

/-- Cpu::execute_arm_psr: MRS/MSR keyed on bits 21 and 22 of the opcode,
with the field masks of the source; the PC then advances by 4. -/
def execute_arm_psr (cpu : Cpu) (opcode : Nat) (mem : Memory) : Cpu × Memory × Nat :=
  let mrs := opcode &&& 0x200000 != 0
  let psr := opcode &&& 0x400000 != 0
  let cpu :=
    if mrs then
      let rd := (opcode >>> 12) &&& 0xF
      if psr then { cpu with r := upd cpu.r rd cpu.get_spsr }
      else { cpu with r := upd cpu.r rd cpu.cpsr }
    else
      let rm := opcode &&& 0xF
      let immediate := opcode &&& 0x2000000 != 0
      let val :=
        if immediate then rotr32 (opcode &&& 0xFF) (((opcode >>> 8) &&& 0xF) * 2)
        else cpu.r rm
      let apply_flags := opcode &&& 0x10000 != 0
      let apply_control := opcode &&& 0x20000 != 0
      let apply_status := opcode &&& 0x40000 != 0
      let apply_extension := opcode &&& 0x80000 != 0
      if psr then
        let spsr := cpu.get_spsr
        let spsr := if apply_flags then (spsr &&& 0x0FFFFF00) ||| (val &&& 0x000000FF) else spsr
        let spsr :=
          if apply_control || apply_status || apply_extension then
            (spsr &&& 0x000000FF) ||| (val &&& 0xFFFFFF00)
          else spsr
        cpu.set_spsr spsr
      else
        let cpu :=
          if apply_flags then
            { cpu with cpsr := (cpu.cpsr &&& 0x0FFFFFFF) ||| (val &&& 0xF0000000) }
          else cpu
        if apply_control || apply_status || apply_extension then
          if cpu.get_mode ≠ Mode.User then
            let flags := cpu.cpsr &&& 0xF0000000
            let cpu := { cpu with cpsr := (cpu.cpsr &&& 0x000000FF) ||| (val &&& 0xFFFFFF00) }
            let cpu :=
              if apply_flags then { cpu with cpsr := (cpu.cpsr &&& 0x0FFFFFFF) ||| flags }
              else cpu
            let new_mode := Mode.from_bits cpu.cpsr
            if new_mode ≠ cpu.get_mode then cpu.set_mode new_mode else cpu
          else cpu
        else cpu
  ({ cpu with r := upd cpu.r 15 (wadd (cpu.r 15) 4) }, mem, 1)

/-- Cpu::execute_arm_load_store_halfword: LDRH/LDRSH/LDRSB/STRH with the
source's pre/post-index and write-back handling. -/
def execute_arm_load_store_halfword (cpu : Cpu) (opcode : Nat) (mem : Memory) : Cpu × Memory × Nat :=
  let rn := (opcode >>> 16) &&& 0xF
  let rd := (opcode >>> 12) &&& 0xF
  let load := ((opcode >>> 20) &&& 1) != 0
  let writeback := ((opcode >>> 21) &&& 1) != 0
  let is_immediate := ((opcode >>> 22) &&& 1) != 0
  let pre_index := ((opcode >>> 24) &&& 1) != 0
  let offset :=
    if is_immediate then (((opcode >>> 8) &&& 0xF) <<< 4) ||| (opcode &&& 0xF)
    else cpu.r (opcode &&& 0xF)
  let base := cpu.r rn
  let addr := if pre_index then wadd base offset else base
  let state :=
    if load then
      let is_signed := ((opcode >>> 6) &&& 1) != 0
      let is_halfword := ((opcode >>> 5) &&& 1) != 0
      let val :=
        if is_signed then
          if is_halfword then sext16 (mem.read_half addr)
          else sext8 (mem.read_byte addr)
        else mem.read_half addr
      ({ cpu with r := upd cpu.r rd val }, mem)
    else (cpu, mem.write_half addr (cpu.r rd % 65536))
  let cpu := state.1
  let mem := state.2
  let final_addr := if pre_index then addr else wadd base offset
  let cpu := if writeback || !pre_index then { cpu with r := upd cpu.r rn final_addr } else cpu
  ({ cpu with r := upd cpu.r 15 (wadd (cpu.r 15) 4) }, mem, 1)

/-- Cpu::execute_arm_bx: switch instruction set from the target's bit 0 and
jump. -/
def execute_arm_bx (cpu : Cpu) (opcode : Nat) (mem : Memory) : Cpu × Memory × Nat :=
  let rm := opcode &&& 0xF
  let target := cpu.r rm
  ((cpu.set_thumb_mode (target &&& 1 != 0)).set_pc target, mem, 2)

/-- Cpu::execute_arm_load_store: LDR/STR with a 12-bit immediate offset
(address arithmetic done in i64 as in the source). -/
def execute_arm_load_store (cpu : Cpu) (opcode : Nat) (mem : Memory) : Cpu × Memory × Nat :=
  let rn := (opcode >>> 16) &&& 0xF
  let rd := (opcode >>> 12) &&& 0xF
  let offset : Int := ((opcode &&& 0xFFF : Nat) : Int)
  let base : Int := (cpu.r rn : Int)
  let load := ((opcode >>> 20) &&& 1) != 0
  let byte := ((opcode >>> 22) &&& 1) != 0
  let add := ((opcode >>> 23) &&& 1) != 0
  let pre_index := ((opcode >>> 24) &&& 1) != 0
  let addr := if add then ofI32 (base + offset) else ofI32 (base - offset)
  if load then
    let val := if byte then mem.read_byte addr else mem.read_word addr
    if rd = 15 then (cpu.set_pc (clear_bit0 val), mem, 2)
    else
      let cpu := { cpu with r := upd cpu.r rd val }
      let cpu := if !pre_index then { cpu with r := upd cpu.r rn addr } else cpu
      ({ cpu with r := upd cpu.r 15 (wadd (cpu.r 15) 4) }, mem, 2)
  else
    let mem := if byte then mem.write_byte addr (cpu.r rd % 256) else mem.write_word addr (cpu.r rd)
    let cpu := if !pre_index then { cpu with r := upd cpu.r rn addr } else cpu
    ({ cpu with r := upd cpu.r 15 (wadd (cpu.r 15) 4) }, mem, 2)

/-- Cpu::execute_arm_load_store_register: LDR/STR with a shifted register
offset; a load into R15 goes through set_pc but, as in the source, the PC
increment at the end still follows. -/
def execute_arm_load_store_register (cpu : Cpu) (opcode : Nat) (mem : Memory) : Cpu × Memory × Nat :=
  let load := ((opcode >>> 20) &&& 1) != 0
  let byte := ((opcode >>> 22) &&& 1) != 0
  let writeback := ((opcode >>> 21) &&& 1) != 0
  let add := ((opcode >>> 23) &&& 1) != 0
  let rn := (opcode >>> 16) &&& 0xF
  let rd := (opcode >>> 12) &&& 0xF
  let rm := opcode &&& 0xF
  let shift_type := (opcode >>> 5) &&& 0x3
  let shift_amount := (opcode >>> 7) &&& 0x1F
  let offset0 := cpu.r rm
  let offset :=
    if shift_type = 0 then (offset0 <<< shift_amount) % 4294967296
    else if shift_type = 1 then offset0 >>> shift_amount
    else if shift_type = 2 then ofI32 (toI32 offset0 >>> shift_amount)
    else rotr32 offset0 shift_amount
  let addr :=
    if add then ofI32 ((cpu.r rn : Int) + (offset : Int))
    else ofI32 ((cpu.r rn : Int) - (offset : Int))
  let state :=
    if load then
      let val := if byte then mem.read_byte addr else mem.read_word addr
      if rd = 15 then (cpu.set_pc (clear_bit0 val), mem)
      else ({ cpu with r := upd cpu.r rd val }, mem)
    else
      (cpu, if byte then mem.write_byte addr (cpu.r rd % 256) else mem.write_word addr (cpu.r rd))
  let cpu := state.1
  let mem := state.2
  let cpu := if writeback then { cpu with r := upd cpu.r rn addr } else cpu
  ({ cpu with r := upd cpu.r 15 (wadd (cpu.r 15) 4) }, mem, 2)

end Cpu

/-- The register loop of Cpu::execute_arm_block_data_transfer: walk the
register list upward, loading from or storing to consecutive words. -/
def bdt_loop (load : Bool) (reg_list : Nat) : List Nat → Cpu × Memory × Nat → Cpu × Memory × Nat
  | [], state => state
  | i :: rest, (cpu, mem, addr) =>
      if reg_list &&& (1 <<< i) ≠ 0 then
        if load then
          bdt_loop load reg_list rest
            ({ cpu with r := upd cpu.r i (mem.read_word addr) }, mem, wadd addr 4)
        else
          bdt_loop load reg_list rest (cpu, mem.write_word addr (cpu.r i), wadd addr 4)
      else bdt_loop load reg_list rest (cpu, mem, addr)

namespace Cpu

/-- Cpu::execute_arm_block_data_transfer: LDM/STM with the source's
write-back rules and the special PC load that can switch instruction set. -/
def execute_arm_block_data_transfer (cpu : Cpu) (opcode : Nat) (mem : Memory) : Cpu × Memory × Nat :=
  let pre_index := ((opcode >>> 24) &&& 1) != 0
  let add_to_base := ((opcode >>> 23) &&& 1) != 0
  let writeback := ((opcode >>> 21) &&& 1) != 0
  let load := ((opcode >>> 20) &&& 1) != 0
  let rn := (opcode >>> 16) &&& 0xF
  let reg_list := opcode &&& 0xFFFF
  let addr0 := cpu.r rn
  let addr0 := if !add_to_base then wsub addr0 (count_ones reg_list * 4) else addr0
  let cpu := if !pre_index && writeback then { cpu with r := upd cpu.r rn addr0 } else cpu
  let state := bdt_loop load reg_list (List.range 16) (cpu, mem, addr0)
  let cpu := state.1
  let mem := state.2.1
  let addr := state.2.2
  let reg_count := count_ones reg_list
  let cpu :=
    if add_to_base && writeback then
      if !pre_index then { cpu with r := upd cpu.r rn addr }
      else { cpu with r := upd cpu.r rn (wadd (cpu.r rn) (reg_count * 4)) }
    else if !add_to_base && writeback && pre_index then
      { cpu with r := upd cpu.r rn (wsub (cpu.r rn) (reg_count * 4)) }
    else cpu
  if load && (reg_list &&& 0x8000 != 0) then
    let pc_value := cpu.r 15
    if pc_value &&& 1 ≠ 0 then ((cpu.set_thumb_mode true).set_pc pc_value, mem, 3)
    else (cpu.set_pc pc_value, mem, 3)
  else ({ cpu with r := upd cpu.r 15 (wadd (cpu.r 15) 4) }, mem, 3)

/-- The match of Cpu::execute_arm_swi over the function number (factored
out of the fetch of the number so the two can be reasoned about
separately): built-in handlers for reset, the no-op BIOS stubs, unsigned
division (0x06 and 0x08) and square root, with a BIOS trap or a plain
return for anything else. -/
def swi_dispatch (cpu : Cpu) (mem : Memory) (swi_func : Nat) : Cpu :=
    if swi_func = 0x00 then (Cpu.reset cpu).set_pc 0x08000000
    else if swi_func = 0x01 then { cpu with r := upd cpu.r 15 (cpu.r 14) }
    else if swi_func = 0x02 ∨ swi_func = 0x03 then { cpu with r := upd cpu.r 15 (cpu.r 14) }
    else if swi_func = 0x04 then { cpu with r := upd cpu.r 15 (cpu.r 14) }
    else if swi_func = 0x05 then { cpu with r := upd cpu.r 15 (cpu.r 14) }
    else if swi_func = 0x06 then
      let r0 := cpu.r 0
      let r1 := cpu.r 1
      let cpu :=
        if r1 ≠ 0 then { cpu with r := upd (upd cpu.r 0 (r0 / r1)) 3 (r0 % r1) }
        else { cpu with r := upd (upd cpu.r 0 0xFFFFFFFF) 3 r0 }
      { cpu with r := upd cpu.r 15 (cpu.r 14) }
    else if swi_func = 0x08 then
      let r0 := cpu.r 0
      let r1 := cpu.r 1
      let cpu :=
        if r1 ≠ 0 then { cpu with r := upd (upd cpu.r 0 (r0 / r1)) 3 (r0 % r1) }
        else { cpu with r := upd (upd cpu.r 0 0xFFFFFFFF) 3 r0 }
      { cpu with r := upd cpu.r 15 (cpu.r 14) }
    else if swi_func = 0x0E then
      -- (r0 as f64).sqrt() as u32 equals the integer square root for every
      -- u32 input: the f64 square root is correctly rounded and the gap to
      -- the next integer exceeds the rounding error
      let cpu := { cpu with r := upd cpu.r 0 (Nat.sqrt (cpu.r 0)) }
      { cpu with r := upd cpu.r 15 (cpu.r 14) }
    else
      if mem.has_bios then
        let old_cpsr := cpu.cpsr
        let cpu := cpu.set_mode Mode.Supervisor
        let cpu := cpu.set_spsr old_cpsr
        let cpu := cpu.set_lr (cpu.r 15)
        let cpu := { cpu with r := upd cpu.r 15 0x08 }
        cpu.set_interrupts_enabled false
      else { cpu with r := upd cpu.r 15 (cpu.r 14) }

/-- Cpu::execute_arm_swi: the SWI function number is re-read from the word
at LR - 4 (wrapping subtraction models the u32 arithmetic) and dispatched;
the call costs 3 + 3 cycles. -/
def execute_arm_swi (cpu : Cpu) (mem : Memory) : Cpu × Memory × Nat :=
  let swi_insn := mem.read_word (wsub (cpu.r 14) 4)
  let swi_func := swi_insn &&& 0xFFFFFF
  (cpu.swi_dispatch mem swi_func, mem, 3 + 3)

/-- Cpu::execute_arm_branch: SWI when bits 27..24 are all set; otherwise
sign-extend the 24-bit word offset, save the return address for BL, and
jump to instruction_pc + 8 + offset * 4. -/
def execute_arm_branch (cpu : Cpu) (opcode instruction_pc : Nat) (mem : Memory) : Cpu × Memory × Nat :=
  if opcode &&& 0x0F000000 = 0x0F000000 then cpu.execute_arm_swi mem
  else
    let offset_imm := opcode &&& 0xFFFFFF
    -- the i32 shift by 2 of the sign-extended offset is multiplication by 4
    let offset : Int :=
      if offset_imm &&& 0x800000 ≠ 0 then toI32 (offset_imm ||| 0xFF000000) * 4
      else ((offset_imm <<< 2 : Nat) : Int)
    let link := ((opcode >>> 24) &&& 1) != 0
    let cpu := if link then cpu.set_lr (wadd instruction_pc 4) else cpu
    let target := wadd (wadd instruction_pc 8) (ofI32 offset)
    (cpu.set_pc target, mem, 2)

/-- Cpu::execute_arm_with_pc: check the condition field first (a failed
condition only advances the PC by 4 and costs one cycle), then dispatch on
the category bits exactly as the source does. -/
def execute_arm_with_pc (cpu : Cpu) (opcode : Nat) (mem : Memory)
    (instruction_pc _pc_at_execution : Nat) : Cpu × Memory × Nat :=
  let cond := (opcode >>> 28) &&& 0xF
  if !(cpu.check_condition cond) then
    ({ cpu with r := upd cpu.r 15 (wadd (cpu.r 15) 4) }, mem, 1)
  else
    let category := (opcode >>> 26) &&& 0x3
    if category = 0x0 then
      if opcode &&& 0x0FFFFFF0 = 0x012FFF10 then cpu.execute_arm_bx opcode mem
      else if (opcode >>> 25) &&& 0x7 = 0 ∧ (opcode >>> 4) &&& 0xF ≠ 0x9 then
        let bit5 := opcode &&& 0x20 ≠ 0
        let bit6 := opcode &&& 0x40 ≠ 0
        if bit5 ∨ bit6 then cpu.execute_arm_load_store_halfword opcode mem
        else if opcode &&& 0x00F0FFF0 = 0x000000B0 ∨ opcode &&& 0x00F0FFF0 = 0x0000F0B0 then
          cpu.execute_arm_load_store opcode mem
        else if opcode &&& 0x0FB00000 = 0x01000000 then cpu.execute_arm_psr opcode mem
        else cpu.execute_arm_data_processing opcode mem
      else if opcode &&& 0x0FB00000 = 0x01000000 then cpu.execute_arm_psr opcode mem
      else cpu.execute_arm_data_processing opcode mem
    else if category = 0x1 then cpu.execute_arm_load_store opcode mem
    else if category = 0x2 then
      let bits_27_25 := (opcode >>> 25) &&& 0x7
      if bits_27_25 = 0b101 then cpu.execute_arm_branch opcode instruction_pc mem
      else if bits_27_25 = 0b100 then cpu.execute_arm_block_data_transfer opcode mem
      else cpu.execute_arm_load_store_register opcode mem
    else cpu.execute_arm_branch opcode instruction_pc mem

/-- Cpu::thumb_branch_cond: an 8-bit signed offset times 2, taken through
set_pc when the condition holds, otherwise the PC advances by 2. -/
def thumb_branch_cond (cpu : Cpu) (opcode instruction_pc : Nat) : Cpu × Nat :=
  let cond := (opcode >>> 8) &&& 0xF
  let offset := ofI32 (toI32 (sext8 opcode) * 2)
  if cpu.check_condition cond then
    (cpu.set_pc (wadd (wadd instruction_pc offset) 2), 1)
  else ({ cpu with r := upd cpu.r 15 (wadd (cpu.r 15) 2) }, 1)

/-- Cpu::thumb_software_interrupt: the function number is taken from R7;
returns set R15 to LR with the Thumb bit forced. -/
def thumb_software_interrupt (cpu : Cpu) (mem : Memory) : Cpu × Nat :=
  let swi_num := cpu.r 7
  let cpu :=
    if swi_num = 0x00 then
      let cpu := Cpu.reset cpu
      { cpu with r := upd cpu.r 15 0x08000001 }
    else if swi_num = 0x01 then { cpu with r := upd cpu.r 15 (cpu.r 14 ||| 1) }
    else if swi_num = 0x02 ∨ swi_num = 0x03 then { cpu with r := upd cpu.r 15 (cpu.r 14 ||| 1) }
    else if swi_num = 0x04 then { cpu with r := upd cpu.r 15 (cpu.r 14 ||| 1) }
    else if swi_num = 0x05 then { cpu with r := upd cpu.r 15 (cpu.r 14 ||| 1) }
    else if swi_num = 0x06 then
      let r0 := cpu.r 0
      let r1 := cpu.r 1
      let cpu :=
        if r1 ≠ 0 then { cpu with r := upd (upd cpu.r 0 (r0 / r1)) 3 (r0 % r1) }
        else { cpu with r := upd (upd cpu.r 0 0xFFFFFFFF) 3 r0 }
      { cpu with r := upd cpu.r 15 (cpu.r 14 ||| 1) }
    else if swi_num = 0x08 then
      let r0 := cpu.r 0
      let r1 := cpu.r 1
      let cpu :=
        if r1 ≠ 0 then { cpu with r := upd (upd cpu.r 0 (r0 / r1)) 3 (r0 % r1) }
        else { cpu with r := upd (upd cpu.r 0 0xFFFFFFFF) 3 r0 }
      { cpu with r := upd cpu.r 15 (cpu.r 14 ||| 1) }
    else if swi_num = 0x0E then
      let cpu := { cpu with r := upd cpu.r 0 (Nat.sqrt (cpu.r 0)) }
      { cpu with r := upd cpu.r 15 (cpu.r 14 ||| 1) }
    else
      if mem.has_bios then
        let old_cpsr := cpu.cpsr
        let cpu := cpu.set_mode Mode.Supervisor
        let cpu := cpu.set_spsr old_cpsr
        let cpu := cpu.set_lr (cpu.r 15)
        let cpu := { cpu with r := upd cpu.r 15 0x08 }
        cpu.set_interrupts_enabled false
      else { cpu with r := upd cpu.r 15 (cpu.r 14 ||| 1) }
  (cpu, 2 + 2)

/-- Cpu::thumb_bl_suffix: combine the staged high offset in LR with the
suffix bits, sign-extend from 23 bits, store the Thumb-mode return address
in LR, and jump (through set_pc) staying in or leaving Thumb mode per the H
bit. -/
def thumb_bl_suffix (cpu : Cpu) (opcode _instruction_pc : Nat) : Cpu × Nat :=
  let h_bit := (opcode >>> 12) &&& 1
  let s_bit2 := (opcode >>> 11) &&& 1
  let imm11 := opcode &&& 0x7FF
  let offset_low := (imm11 <<< 1) ||| (s_bit2 <<< 11)
  -- i32 wrapping add on bit patterns is u32 wrapping add
  let off0 := wadd (cpu.r 14) offset_low
  -- offset | (-0x400000_i32): set bits 22..31 when bit 22 is set
  let offn := if off0 &&& 0x400000 ≠ 0 then off0 ||| 0xFFC00000 else off0
  let cpu := { cpu with r := upd cpu.r 14 ((wadd (cpu.r 15) 2) ||| 1) }
  let target := wadd (wadd (cpu.r 15) 2) offn
  if h_bit = 1 then ((cpu.set_thumb_mode false).set_pc (clear_bits10 target), 1)
  else (cpu.set_pc (target ||| 1), 1)

end Cpu

/-! Concrete states used by the verification theorems below. -/

/-- A CPU about to run the ARM division SWI with a zero divisor:
LR = 0x08000004 (so the SWI word is read from ROM offset 0), R0 = 77,
R1 = 0. -/
def cpu6 : Cpu :=
  { Cpu.new with r := fun i => if i = 14 then 0x08000004 else if i = 0 then 77 else 0 }

/-- A CPU about to run the Thumb division SWI: R7 = 6, R0 = 77, R1 = 0. -/
def cpu7 : Cpu :=
  { Cpu.new with
    r := fun i => if i = 14 then 0x08000004 else if i = 7 then 6 else if i = 0 then 77 else 0 }

/-- A memory whose ROM starts with the ARM opcode SWI 0x06 (0xEF000006). -/
def mem6 : Memory := { Memory.new with rom := [0x06, 0x00, 0x00, 0xEF] }

/-- A memory with three distinct bytes at the start of WRAM. -/
def mem7 : Memory :=
  { Memory.new with
    wram := fun i => if i = 0 then 0xAA else if i = 1 then 0xBB else if i = 2 then 0xCC else 0 }

/-- A CPU with the Z flag set (so condition EQ holds). -/
def cpuZ : Cpu := { Cpu.new with cpsr := 0x4000001F }

/-- An interrupt controller with master enable on, IE = 0x0C, IF = 0x0A. -/
def ic9 : InterruptController :=
  { InterruptController.new with ime := true, ie := 0x0C, if_raw := 0x0A }

/-! ## Shared lemmas -/

/-- The PC stored by set_pc is always word aligned. -/
theorem set_pc_r15_mod4 (cpu : Cpu) (v : Nat) : (cpu.set_pc v).r 15 % 4 = 0 := by
  simp [Cpu.set_pc, upd, clear_bits10]
  omega

/-- A remainder mod 2^k distributes over bitwise or. -/
theorem lor_mod_pow (a b k : Nat) : (a ||| b) % 2 ^ k = a % 2 ^ k ||| b % 2 ^ k := by
  apply Nat.eq_of_testBit_eq
  intro i
  simp [Nat.testBit_mod_two_pow, Nat.testBit_lor, Bool.and_or_distrib_left]

/-- A right shift distributes over bitwise or. -/
theorem lor_shiftRight (a b k : Nat) : (a ||| b) >>> k = (a >>> k) ||| (b >>> k) := by
  apply Nat.eq_of_testBit_eq
  intro i
  simp [Nat.testBit_shiftRight, Nat.testBit_lor]

/-- A left shift distributes over bitwise or. -/
theorem lor_shiftLeft (a b k : Nat) : (a ||| b) <<< k = (a <<< k) ||| (b <<< k) := by
  apply Nat.eq_of_testBit_eq
  intro i
  simp [Nat.testBit_shiftLeft, Nat.testBit_lor, Bool.and_or_distrib_left]

/-- Every read_byte result is a byte. -/
theorem read_byte_lt (m : Memory) (a : Nat) : m.read_byte a < 256 := by
  unfold Memory.read_byte
  exact Nat.mod_lt _ (by norm_num)

/-! ## The claims -/

/-- C1: take_interrupt does switch to IRQ mode, set LR to the pre-entry PC
minus 4, set the IRQ-disable bit and jump to vector 0x18, but it saves the
pre-entry CPSR into banked_spsr slot 2, while mode_index assigns IRQ the
slot 1, so the SPSR visible in the new IRQ mode is not the saved CPSR. -/
theorem take_interrupt_wrong_spsr_slot :
    (Cpu.new.take_interrupt Memory.new).get_mode = Mode.Irq ∧
    (Cpu.new.take_interrupt Memory.new).r 14 = wsub (Cpu.new.r 15) 4 ∧
    (Cpu.new.take_interrupt Memory.new).cpsr &&& 0x80 = 0x80 ∧
    (Cpu.new.take_interrupt Memory.new).r 15 = 0x18 ∧
    (Cpu.new.take_interrupt Memory.new).banked_spsr 2 = Cpu.new.cpsr ∧
    Cpu.mode_index Mode.Irq = 1 ∧
    (Cpu.new.take_interrupt Memory.new).banked_spsr 1 ≠ Cpu.new.cpsr ∧
    (Cpu.new.take_interrupt Memory.new).get_spsr ≠ Cpu.new.cpsr := by
  decide

/-- C2 counterexample: on a fresh CPU (System mode, CPSR = 0x1F), the MRS
path of execute_arm_psr reads the SPSR as 0, not the live CPSR, and
get_spsr itself disagrees with the CPSR. -/
theorem mrs_spsr_not_live_cpsr :
    Cpu.new.get_mode = Mode.System ∧
    (Cpu.new.execute_arm_psr 0x00600000 Memory.new).1.r 0 ≠ Cpu.new.cpsr ∧
    Cpu.new.get_spsr ≠ Cpu.new.cpsr := by
  decide

/-- C2 amended: in User or System mode, reading the SPSR (directly or
through the MRS path of execute_arm_psr) returns the banked slot 5 shared
by System and User, not the live CPSR; the live-CPSR fallback branch of
get_spsr is unreachable because mode_index maps every mode below 6. -/
theorem spsr_user_system_reads_bank5 (cpu : Cpu) (opcode : Nat) (mem : Memory)
    (hmode : cpu.get_mode = Mode.User ∨ cpu.get_mode = Mode.System)
    (hmrs : opcode &&& 0x200000 ≠ 0) (hpsr : opcode &&& 0x400000 ≠ 0)
    (hrd : (opcode >>> 12) &&& 0xF ≠ 15) :
    cpu.get_spsr = cpu.banked_spsr 5 ∧
    (cpu.execute_arm_psr opcode mem).1.r ((opcode >>> 12) &&& 0xF) = cpu.banked_spsr 5 := by
  have h5 : Cpu.mode_index cpu.get_mode = 5 := by
    rcases hmode with h | h <;> rw [h] <;> rfl
  have hspsr : cpu.get_spsr = cpu.banked_spsr 5 := by
    unfold Cpu.get_spsr
    rw [h5]
    norm_num
  refine ⟨hspsr, ?_⟩
  have hm : (opcode &&& 0x200000 != 0) = true := by simp [bne_iff_ne, hmrs]
  have hp : (opcode &&& 0x400000 != 0) = true := by simp [bne_iff_ne, hpsr]
  simp only [Cpu.execute_arm_psr, hm, hp, if_true]
  simp [upd, hrd, hspsr]

/-- C2 witness: on a fresh CPU in System mode, the MRS path with opcode
0x00600000 yields banked_spsr slot 5. -/
theorem spsr_user_system_reads_bank5_witness :
    (Cpu.new.get_mode = Mode.User ∨ Cpu.new.get_mode = Mode.System) ∧
    (0x00600000 : Nat) &&& 0x200000 ≠ 0 ∧ (0x00600000 : Nat) &&& 0x400000 ≠ 0 ∧
    ((0x00600000 : Nat) >>> 12) &&& 0xF ≠ 15 ∧
    Cpu.new.get_spsr = Cpu.new.banked_spsr 5 ∧
    (Cpu.new.execute_arm_psr 0x00600000 Memory.new).1.r (((0x00600000 : Nat) >>> 12) &&& 0xF)
      = Cpu.new.banked_spsr 5 := by
  have h := spsr_user_system_reads_bank5 Cpu.new 0x00600000 Memory.new
    (Or.inr (by decide)) (by decide) (by decide) (by decide)
  exact ⟨Or.inr (by decide), by decide, by decide, by decide, h.1, h.2⟩

/-- C3 counterexample: after reset the link register is 0x08000004, not
zero, so not all general-purpose registers are cleared. -/
theorem reset_lr_not_zero : ¬ ((Cpu.reset Cpu.new).r 14 = 0) := by decide

/-- C3 amended: reset puts the CPU in System mode with R0..R12 zero,
SP = 0x03007F00, LR = 0x08000004, PC = 0x08000000, the Thumb bit clear and
all four condition flags clear (and the IRQ-disable bit set). -/
theorem reset_state (cpu : Cpu) :
    (Cpu.reset cpu).r 0 = 0 ∧ (Cpu.reset cpu).r 1 = 0 ∧ (Cpu.reset cpu).r 2 = 0 ∧
    (Cpu.reset cpu).r 3 = 0 ∧ (Cpu.reset cpu).r 4 = 0 ∧ (Cpu.reset cpu).r 5 = 0 ∧
    (Cpu.reset cpu).r 6 = 0 ∧ (Cpu.reset cpu).r 7 = 0 ∧ (Cpu.reset cpu).r 8 = 0 ∧
    (Cpu.reset cpu).r 9 = 0 ∧ (Cpu.reset cpu).r 10 = 0 ∧ (Cpu.reset cpu).r 11 = 0 ∧
    (Cpu.reset cpu).r 12 = 0 ∧
    (Cpu.reset cpu).r 13 = 0x03007F00 ∧ (Cpu.reset cpu).r 14 = 0x08000004 ∧
    (Cpu.reset cpu).r 15 = 0x08000000 ∧
    (Cpu.reset cpu).is_thumb_mode = false ∧
    (Cpu.reset cpu).get_flag_n = false ∧ (Cpu.reset cpu).get_flag_z = false ∧
    (Cpu.reset cpu).get_flag_c = false ∧ (Cpu.reset cpu).get_flag_v = false ∧
    (Cpu.reset cpu).get_mode = Mode.System ∧
    (Cpu.reset cpu).are_interrupts_enabled = false := by
  refine ⟨rfl, rfl, rfl, rfl, rfl, rfl, rfl, rfl, rfl, rfl, rfl, rfl, rfl, rfl, rfl, rfl,
    ?_, ?_, ?_, ?_, ?_, ?_, ?_⟩ <;> · rw [show Cpu.reset cpu = Cpu.reset Cpu.new from rfl]
                                      decide

/-- C4: the branch executor at instruction address 0x08000000 with offset
field 0x14 (opcode 0xEA000014) sets the PC to 0x08000058 = 0x08000000 + 8 +
0x14 * 4, not to the 0x08000050 asserted by the specification and by the
repository's own test. -/
theorem branch_offset_14_lands_58 :
    (Cpu.new.execute_arm_branch 0xEA000014 0x08000000 Memory.new).1.r 15 = 0x08000058 ∧
    (Cpu.new.execute_arm_branch 0xEA000014 0x08000000 Memory.new).1.r 15 ≠ 0x08000050 := by
  decide

/-- C5: when the condition field evaluates false, execute_arm_with_pc only
advances the PC by 4 (wrapping) and returns one cycle: the memory, all
registers R0..R14, the CPSR (hence all flags and the mode), and every bank
are unchanged. -/
theorem arm_condition_failed_frame (cpu : Cpu) (opcode : Nat) (mem : Memory)
    (instruction_pc pc_at_execution : Nat)
    (hc : cpu.check_condition ((opcode >>> 28) &&& 0xF) = false) :
    (cpu.execute_arm_with_pc opcode mem instruction_pc pc_at_execution).2.1 = mem ∧
    (cpu.execute_arm_with_pc opcode mem instruction_pc pc_at_execution).2.2 = 1 ∧
    (cpu.execute_arm_with_pc opcode mem instruction_pc pc_at_execution).1.r 15
      = wadd (cpu.r 15) 4 ∧
    (∀ i, i ≠ 15 →
      (cpu.execute_arm_with_pc opcode mem instruction_pc pc_at_execution).1.r i = cpu.r i) ∧
    (cpu.execute_arm_with_pc opcode mem instruction_pc pc_at_execution).1.cpsr = cpu.cpsr ∧
    (cpu.execute_arm_with_pc opcode mem instruction_pc pc_at_execution).1.get_mode
      = cpu.get_mode ∧
    (cpu.execute_arm_with_pc opcode mem instruction_pc pc_at_execution).1.get_flag_n
      = cpu.get_flag_n ∧
    (cpu.execute_arm_with_pc opcode mem instruction_pc pc_at_execution).1.get_flag_z
      = cpu.get_flag_z ∧
    (cpu.execute_arm_with_pc opcode mem instruction_pc pc_at_execution).1.get_flag_c
      = cpu.get_flag_c ∧
    (cpu.execute_arm_with_pc opcode mem instruction_pc pc_at_execution).1.get_flag_v
      = cpu.get_flag_v ∧
    (cpu.execute_arm_with_pc opcode mem instruction_pc pc_at_execution).1.banked_sp
      = cpu.banked_sp ∧
    (cpu.execute_arm_with_pc opcode mem instruction_pc pc_at_execution).1.banked_lr
      = cpu.banked_lr ∧
    (cpu.execute_arm_with_pc opcode mem instruction_pc pc_at_execution).1.banked_spsr
      = cpu.banked_spsr ∧
    (cpu.execute_arm_with_pc opcode mem instruction_pc pc_at_execution).1.banked_r8_fiq
      = cpu.banked_r8_fiq ∧
    (cpu.execute_arm_with_pc opcode mem instruction_pc pc_at_execution).1.banked_r9_fiq
      = cpu.banked_r9_fiq ∧
    (cpu.execute_arm_with_pc opcode mem instruction_pc pc_at_execution).1.banked_r10_fiq
      = cpu.banked_r10_fiq ∧
    (cpu.execute_arm_with_pc opcode mem instruction_pc pc_at_execution).1.banked_r11_fiq
      = cpu.banked_r11_fiq ∧
    (cpu.execute_arm_with_pc opcode mem instruction_pc pc_at_execution).1.banked_r12_fiq
      = cpu.banked_r12_fiq := by
  have hres : cpu.execute_arm_with_pc opcode mem instruction_pc pc_at_execution
      = ({ cpu with r := upd cpu.r 15 (wadd (cpu.r 15) 4) }, mem, 1) := by
    simp only [Cpu.execute_arm_with_pc, hc, Bool.not_false, if_true]
  refine ⟨?_, ?_, ?_, ?_, ?_, ?_, ?_, ?_, ?_, ?_, ?_, ?_, ?_, ?_, ?_, ?_, ?_, ?_⟩ <;>
    simp only [hres] <;>
    first
      | rfl
      | (intro i hi; simp [upd, hi])

/-- C5 witness: opcode 0 carries condition EQ, which fails on a fresh CPU
(Z clear), and the early-out behavior holds there. -/
theorem arm_condition_failed_frame_witness :
    Cpu.new.check_condition (((0 : Nat) >>> 28) &&& 0xF) = false ∧
    (Cpu.new.execute_arm_with_pc 0 Memory.new 0 0).2.1 = Memory.new ∧
    (Cpu.new.execute_arm_with_pc 0 Memory.new 0 0).2.2 = 1 ∧
    (Cpu.new.execute_arm_with_pc 0 Memory.new 0 0).1.r 15 = wadd (Cpu.new.r 15) 4 := by
  have h := arm_condition_failed_frame Cpu.new 0 Memory.new 0 0 (by decide)
  exact ⟨by decide, h.1, h.2.1, h.2.2.1⟩

/-- C10: set_pc always stores its argument with the low two bits cleared
(the stored PC is the largest multiple of 4 not above the 32-bit target),
and the Thumb handlers that branch through set_pc (thumb_branch_cond on a
taken condition and thumb_bl_suffix on both of its paths) therefore also
leave a word-aligned PC, even though Thumb targets may be half-word
aligned. -/
theorem set_pc_word_aligns (cpu : Cpu) (v op ipc : Nat) :
    (cpu.set_pc v).r 15 % 4 = 0 ∧
    (v < 4294967296 → ((cpu.set_pc v).r 15 ≤ v ∧ v < (cpu.set_pc v).r 15 + 4)) ∧
    (cpu.check_condition ((op >>> 8) &&& 0xF) = true →
      (cpu.thumb_branch_cond op ipc).1.r 15 % 4 = 0) ∧
    (cpu.thumb_bl_suffix op ipc).1.r 15 % 4 = 0 := by
  refine ⟨set_pc_r15_mod4 cpu v, ?_, ?_, ?_⟩
  · intro hv
    simp [Cpu.set_pc, upd, clear_bits10]
    omega
  · intro h
    simp only [Cpu.thumb_branch_cond, h, if_true]
    exact set_pc_r15_mod4 _ _
  · simp only [Cpu.thumb_bl_suffix]
    repeat' split
    all_goals exact set_pc_r15_mod4 _ _

/-- C6: the software-interrupt division call (function numbers 0x06 and
0x08), in both instruction sets, returns R0 = 0xFFFFFFFF and R3 = the
original dividend when the divisor R1 is zero, and the unsigned quotient
and remainder otherwise; no path faults. -/
theorem swi_div_results (cpu : Cpu) (mem : Memory) :
    ((mem.read_word (wsub (cpu.r 14) 4) &&& 0xFFFFFF = 0x06 ∨
      mem.read_word (wsub (cpu.r 14) 4) &&& 0xFFFFFF = 0x08) →
      ((cpu.r 1 = 0 → (cpu.execute_arm_swi mem).1.r 0 = 0xFFFFFFFF ∧
          (cpu.execute_arm_swi mem).1.r 3 = cpu.r 0) ∧
       (cpu.r 1 ≠ 0 → (cpu.execute_arm_swi mem).1.r 0 = cpu.r 0 / cpu.r 1 ∧
          (cpu.execute_arm_swi mem).1.r 3 = cpu.r 0 % cpu.r 1))) ∧
    ((cpu.r 7 = 0x06 ∨ cpu.r 7 = 0x08) →
      ((cpu.r 1 = 0 → (cpu.thumb_software_interrupt mem).1.r 0 = 0xFFFFFFFF ∧
          (cpu.thumb_software_interrupt mem).1.r 3 = cpu.r 0) ∧
       (cpu.r 1 ≠ 0 → (cpu.thumb_software_interrupt mem).1.r 0 = cpu.r 0 / cpu.r 1 ∧
          (cpu.thumb_software_interrupt mem).1.r 3 = cpu.r 0 % cpu.r 1))) := by
  have he : cpu.execute_arm_swi mem
      = (cpu.swi_dispatch mem (mem.read_word (wsub (cpu.r 14) 4) &&& 0xFFFFFF),
         mem, 3 + 3) := rfl
  constructor
  · intro hf
    rcases hf with h | h <;> rw [he, h] <;>
    · constructor
      · intro hz
        simp [Cpu.swi_dispatch, hz, upd]
      · intro hnz
        simp [Cpu.swi_dispatch, hnz, upd]
  · intro hf
    rcases hf with h | h <;>
    · constructor
      · intro hz
        simp [Cpu.thumb_software_interrupt, h, hz, upd]
      · intro hnz
        simp [Cpu.thumb_software_interrupt, h, hnz, upd]

/-- C6 witness: with the SWI word 0xEF000006 at LR - 4 and R0 = 77, R1 = 0,
the ARM path yields R0 = 0xFFFFFFFF and R3 = 77; with R7 = 6 the Thumb path
does the same. -/
theorem swi_div_results_witness :
    mem6.read_word (wsub (cpu6.r 14) 4) &&& 0xFFFFFF = 0x06 ∧ cpu6.r 1 = 0 ∧
    (cpu6.execute_arm_swi mem6).1.r 0 = 0xFFFFFFFF ∧
    (cpu6.execute_arm_swi mem6).1.r 3 = cpu6.r 0 ∧
    cpu7.r 7 = 0x06 ∧
    (cpu7.thumb_software_interrupt mem6).1.r 0 = 0xFFFFFFFF ∧
    (cpu7.thumb_software_interrupt mem6).1.r 3 = cpu7.r 0 := by
  have ha := ((swi_div_results cpu6 mem6).1 (Or.inl (by decide))).1 (by decide)
  have hb := ((swi_div_results cpu7 mem6).2 (Or.inl (by decide))).1 (by decide)
  exact ⟨by decide, by decide, ha.1, ha.2, by decide, hb.1, hb.2⟩

/-- The fuel-bounded trailing-zero count finds the least set bit of a
non-zero value within its fuel range. -/
theorem tz_aux_spec : ∀ fuel n, n ≠ 0 → n < 2 ^ fuel →
    Nat.testBit n (tz_aux fuel n) = true ∧ ∀ j, j < tz_aux fuel n → Nat.testBit n j = false := by
  intro fuel
  induction fuel with
  | zero => intro n h0 hlt; omega
  | succ f ih =>
    intro n h0 hlt
    by_cases hodd : n % 2 = 1
    · have ht : tz_aux (f + 1) n = 0 := by simp [tz_aux, h0, hodd]
      rw [ht]
      refine ⟨?_, fun j hj => by omega⟩
      rw [Nat.testBit_zero]
      simp [hodd]
    · have hn2 : n / 2 ≠ 0 := by omega
      have hlt2 : n / 2 < 2 ^ f := by
        have h := hlt
        rw [Nat.pow_succ] at h
        omega
      obtain ⟨h1, h2⟩ := ih (n / 2) hn2 hlt2
      have ht : tz_aux (f + 1) n = 1 + tz_aux f (n / 2) := by simp [tz_aux, h0, hodd]
      rw [ht]
      constructor
      · rw [show 1 + tz_aux f (n / 2) = tz_aux f (n / 2) + 1 from by omega,
          Nat.testBit_add_one]
        exact h1
      · intro j hj
        cases j with
        | zero =>
          rw [Nat.testBit_zero]
          simp [hodd]
        | succ j' =>
          rw [Nat.testBit_add_one]
          exact h2 j' (by omega)

/-- The least set bit of a value below 2^14 has index below 14. -/
theorem trailing_zeros16_lt (n : Nat) (h0 : n ≠ 0) (hlt : n < 16384) :
    trailing_zeros16 n < 14 := by
  obtain ⟨h1, _⟩ := tz_aux_spec 16 n h0 (lt_of_lt_of_le hlt (by norm_num))
  by_contra h14
  push_neg at h14
  have hlt2 : n < 2 ^ tz_aux 16 n :=
    lt_of_lt_of_le hlt (le_trans (by norm_num : (16384 : Nat) ≤ 2 ^ 14)
      (Nat.pow_le_pow_right (by norm_num) h14))
  have hfalse := Nat.testBit_lt_two_pow hlt2
  rw [hfalse] at h1
  exact Bool.false_ne_true h1

/-- C9: get_pending returns none whenever the master enable is false, even
with a non-empty enable-and-request intersection; with master enable on and
a non-empty intersection it returns the single flag 2^k of the
lowest-numbered set bit k of that intersection.  The register invariant
(both masks within the 14 defined flag bits) is the hypothesis. -/
theorem get_pending_gating (ic : InterruptController)
    (hie : ic.ie < 16384) (_hif : ic.if_raw < 16384) :
    (ic.ime = false → ic.get_pending = none) ∧
    (ic.ime = true → ic.ie &&& ic.if_raw ≠ 0 →
      ∃ k, ic.get_pending = some (2 ^ k) ∧
        Nat.testBit (ic.ie &&& ic.if_raw) k = true ∧
        ∀ j, j < k → Nat.testBit (ic.ie &&& ic.if_raw) j = false) := by
  constructor
  · intro h
    simp [InterruptController.get_pending, h]
  · intro him hne
    have hp : ic.ie &&& ic.if_raw < 16384 := lt_of_le_of_lt Nat.and_le_left hie
    obtain ⟨h1, h2⟩ := tz_aux_spec 16 (ic.ie &&& ic.if_raw) hne
      (lt_of_lt_of_le hp (by norm_num))
    have hk : trailing_zeros16 (ic.ie &&& ic.if_raw) < 14 :=
      trailing_zeros16_lt _ hne hp
    refine ⟨trailing_zeros16 (ic.ie &&& ic.if_raw), ?_, h1, h2⟩
    simp only [InterruptController.get_pending, him, Bool.not_true, Bool.false_eq_true,
      if_false, hne, if_neg hne]
    unfold from_bits_truncate interrupt_all
    rw [Nat.shiftLeft_eq, one_mul,
      show (0x3FFF : Nat) = 2 ^ 14 - 1 from by norm_num,
      Nat.and_pow_two_sub_one_eq_mod]
    rw [Nat.mod_eq_of_lt (Nat.pow_lt_pow_right (by norm_num) hk)]

/-- C9 witness: with IE = 0x0C and IF = 0x0A enabled, the pending interrupt
is flag 8 (bit 3), the lowest set bit of the intersection 0x08. -/
theorem get_pending_gating_witness :
    ic9.ie < 16384 ∧ ic9.if_raw < 16384 ∧ ic9.ime = true ∧ ic9.ie &&& ic9.if_raw ≠ 0 ∧
    (∃ k, ic9.get_pending = some (2 ^ k) ∧
      Nat.testBit (ic9.ie &&& ic9.if_raw) k = true ∧
      ∀ j, j < k → Nat.testBit (ic9.ie &&& ic9.if_raw) j = false) ∧
    ic9.get_pending = some 8 := by
  refine ⟨by decide, by decide, by decide, by decide, ?_, by decide⟩
  exact (get_pending_gating ic9 (by decide) (by decide)).2 (by decide) (by decide)

/-- Masking with 0xFF is reduction mod 256. -/
theorem and255_mod (x : Nat) : x &&& 0xFF = x % 256 := by
  have h := Nat.and_pow_two_sub_one_eq_mod x 8
  norm_num at h
  exact h

/-- A remainder mod 2^n commutes with a right shift by k ≤ n bits. -/
theorem shiftRight_mod_pow (x n k : Nat) (h : k ≤ n) :
    (x % 2 ^ n) >>> k = (x >>> k) % 2 ^ (n - k) := by
  apply Nat.eq_of_testBit_eq
  intro i
  simp only [Nat.testBit_shiftRight, Nat.testBit_mod_two_pow]
  by_cases hc : k + i < n
  · simp [hc, show i < n - k from by omega]
  · simp [hc, show ¬(i < n - k) from by omega]

/-- The low byte of the duplicated half-word value is the original byte. -/
theorem dup_lo (v : Nat) (hv : v < 256) : ((v <<< 8 ||| v) % 65536) &&& 0xFF = v := by
  rw [and255_mod, Nat.mod_mod_of_dvd _ (by norm_num : (256 : Nat) ∣ 65536)]
  have h2 : (v <<< 8 ||| v) % 256 = (v <<< 8) % 256 ||| v % 256 := by
    have h := lor_mod_pow (v <<< 8) v 8
    norm_num at h
    exact h
  rw [h2, Nat.shiftLeft_eq]
  norm_num [Nat.mul_mod_left, Nat.mod_eq_of_lt hv]

/-- The high byte of the duplicated half-word value is the original byte. -/
theorem dup_hi (v : Nat) (hv : v < 256) :
    (((v <<< 8 ||| v) % 65536) >>> 8) &&& 0xFF = v := by
  rw [and255_mod, show (65536 : Nat) = 2 ^ 16 from by norm_num,
    shiftRight_mod_pow _ 16 8 (by norm_num), lor_shiftRight, Nat.shiftLeft_eq,
    Nat.shiftRight_eq_div_pow, Nat.shiftRight_eq_div_pow]
  norm_num [Nat.div_eq_of_lt hv, Nat.mod_eq_of_lt hv]

/-- Rotating a two-byte little-endian composition right by 8 bits swaps the
bytes. -/
theorem rotr16_bytes (a b : Nat) (ha : a < 256) (hb : b < 256) :
    rotr16 (a ||| b <<< 8) 8 = b ||| a <<< 8 := by
  have hb8 : b <<< 8 < 65536 := by
    rw [Nat.shiftLeft_eq]
    norm_num
    omega
  have hv : (a ||| b <<< 8) % 65536 = a ||| b <<< 8 := by
    rw [show (65536 : Nat) = 2 ^ 16 from by norm_num, lor_mod_pow,
      Nat.mod_eq_of_lt (by omega : a < 2 ^ 16),
      Nat.mod_eq_of_lt (by norm_num at hb8 ⊢; omega : b <<< 8 < 2 ^ 16)]
  unfold rotr16
  simp only [hv]
  norm_num
  rw [lor_shiftRight, lor_shiftLeft, Nat.shiftLeft_shiftLeft, Nat.shiftLeft_eq,
    Nat.shiftRight_eq_div_pow, Nat.shiftRight_eq_div_pow]
  norm_num [Nat.div_eq_of_lt ha]
  rw [show ((b ||| (a <<< 8 ||| b <<< 16)) % 65536 : Nat)
      = b % 65536 ||| ((a <<< 8) % 65536 ||| (b <<< 16) % 65536) from by
        have h1 := lor_mod_pow b (a <<< 8 ||| b <<< 16) 16
        have h2 := lor_mod_pow (a <<< 8) (b <<< 16) 16
        norm_num at h1 h2
        rw [h1, h2]]
  rw [Nat.mod_eq_of_lt (by omega : b < 65536),
    Nat.mod_eq_of_lt (show a <<< 8 < 65536 from by rw [Nat.shiftLeft_eq]; norm_num; omega),
    show (b <<< 16) % 65536 = 0 from by rw [Nat.shiftLeft_eq]; norm_num [Nat.mul_mod_left]]
  simp

/-- map_address on the canonical WRAM window. -/
theorem map_address_wram (m : Memory) (a : Nat)
    (h1 : 0x02000000 ≤ a) (h2 : a ≤ 0x0203FFFF) :
    m.map_address a = (MemoryRegion.Wram, a - 0x02000000) := by
  unfold Memory.map_address
  rw [if_neg (by omega), if_pos (show 0x02000000 ≤ a ∧ a ≤ 0x020FFFFF from ⟨h1, by omega⟩)]
  have h3 : (a - 0x02000000) &&& 0x3FFFF = a - 0x02000000 := by
    have h4 := Nat.and_pow_two_sub_one_eq_mod (a - 0x02000000) 18
    norm_num at h4
    rw [h4]
    omega
  rw [h3]

/-- map_address on the canonical palette window. -/
theorem map_address_palette (m : Memory) (a : Nat)
    (h1 : 0x05000000 ≤ a) (h2 : a ≤ 0x050003FF) :
    m.map_address a = (MemoryRegion.Palette, a - 0x05000000) := by
  unfold Memory.map_address
  rw [if_neg (by omega), if_neg (by omega), if_neg (by omega), if_neg (by omega),
    if_pos (show 0x05000000 ≤ a ∧ a ≤ 0x050003FF from ⟨h1, h2⟩)]

/-- map_address on the canonical OAM window. -/
theorem map_address_oam (m : Memory) (a : Nat)
    (h1 : 0x07000000 ≤ a) (h2 : a ≤ 0x070003FF) :
    m.map_address a = (MemoryRegion.Oam, a - 0x07000000) := by
  unfold Memory.map_address
  rw [if_neg (by omega), if_neg (by omega), if_neg (by omega), if_neg (by omega),
    if_neg (by omega), if_neg (by omega), if_neg (by omega),
    if_pos (show 0x07000000 ≤ a ∧ a ≤ 0x070003FF from ⟨h1, h2⟩)]

/-- read_byte on the canonical WRAM window. -/
theorem read_byte_wram (m : Memory) (a : Nat)
    (h1 : 0x02000000 ≤ a) (h2 : a ≤ 0x0203FFFF) :
    m.read_byte a = m.wram (a - 0x02000000) % 256 := by
  unfold Memory.read_byte
  rw [map_address_wram m a h1 h2]

/-- read_byte on the canonical palette window. -/
theorem read_byte_palette (m : Memory) (a : Nat)
    (h1 : 0x05000000 ≤ a) (h2 : a ≤ 0x050003FF) :
    m.read_byte a = m.palette (a - 0x05000000) % 256 := by
  unfold Memory.read_byte
  rw [map_address_palette m a h1 h2]

/-- read_byte on the canonical OAM window. -/
theorem read_byte_oam (m : Memory) (a : Nat)
    (h1 : 0x07000000 ≤ a) (h2 : a ≤ 0x070003FF) :
    m.read_byte a = m.oam (a - 0x07000000) % 256 := by
  unfold Memory.read_byte
  rw [map_address_oam m a h1 h2]

/-- C7 counterexample: an odd-address half-word read from WRAM is not the
aligned-down half-word rotated right by 8 bits (bytes AA BB CC at
0x02000000: the read at 0x02000001 gives 0xBBCC, the rotated aligned read
gives 0xAABB). -/
theorem unaligned_half_read_not_rotated_aligned :
    mem7.read_half 0x02000001
      ≠ rotr16 (mem7.read_half 0x02000000) (8 * (0x02000001 % 2)) := by
  decide

/-- C7 amended: misaligned word reads do return the aligned-down word
rotated right by 8 bits per byte of misalignment, and misaligned half-word
reads do so in the palette and OAM (and VRAM) branches; but in the other
regions (WRAM shown) an odd half-word read returns the bytes at addr and
addr + 1 byte-swapped, which involves the byte one past the aligned
half-word.  Writes are unaffected: a word write stores its little-endian
bytes at the literal addresses addr .. addr + 3 with no rotation (WRAM
shown). -/
theorem unaligned_access_behavior (m : Memory) (addr v : Nat) :
    (addr < 4294967296 → addr % 4 ≠ 0 →
      m.read_word addr = rotr32 (m.read_word (addr - addr % 4)) (8 * (addr % 4))) ∧
    (0x05000000 ≤ addr → addr ≤ 0x050003FF → addr % 2 = 1 →
      m.read_half addr = rotr16 (m.read_half (addr - 1)) 8) ∧
    (0x07000000 ≤ addr → addr ≤ 0x070003FF → addr % 2 = 1 →
      m.read_half addr = rotr16 (m.read_half (addr - 1)) 8) ∧
    (0x02000000 ≤ addr → addr ≤ 0x0203FFFE → addr % 2 = 1 →
      m.read_half addr = m.read_byte (addr + 1) ||| (m.read_byte addr) <<< 8) ∧
    (0x02000000 ≤ addr → addr + 3 ≤ 0x0203FFFF →
      ((m.write_word addr v).wram (addr - 0x02000000) = v % 4294967296 % 256 ∧
       (m.write_word addr v).wram (addr - 0x02000000 + 1) = ((v % 4294967296) >>> 8) % 256 ∧
       (m.write_word addr v).wram (addr - 0x02000000 + 2) = ((v % 4294967296) >>> 16) % 256 ∧
       (m.write_word addr v).wram (addr - 0x02000000 + 3) = ((v % 4294967296) >>> 24) % 256)) := by
  refine ⟨?_, ?_, ?_, ?_, ?_⟩
  · intro h32 h4
    have hmods : ((addr - addr % 4) + 1) % 4294967296 = (addr - addr % 4) + 1 :=
      Nat.mod_eq_of_lt (by omega)
    have hmods2 : ((addr - addr % 4) + 2) % 4294967296 = (addr - addr % 4) + 2 :=
      Nat.mod_eq_of_lt (by omega)
    have hmods3 : ((addr - addr % 4) + 3) % 4294967296 = (addr - addr % 4) + 3 :=
      Nat.mod_eq_of_lt (by omega)
    have hh1 : m.read_half (addr - addr % 4)
        = m.read_byte (addr - addr % 4) ||| (m.read_byte ((addr - addr % 4) + 1)) <<< 8 := by
      unfold Memory.read_half
      rw [if_neg (show ¬((addr - addr % 4) % 2 ≠ 0) from by omega)]
    have hh2 : m.read_half ((addr - addr % 4) + 2)
        = m.read_byte ((addr - addr % 4) + 2) ||| (m.read_byte ((addr - addr % 4) + 3)) <<< 8 := by
      unfold Memory.read_half
      rw [if_neg (show ¬(((addr - addr % 4) + 2) % 2 ≠ 0) from by omega),
        show addr - addr % 4 + 2 + 1 = addr - addr % 4 + 3 from by omega]
    unfold Memory.read_word
    rw [if_pos h4, if_neg (show ¬((addr - addr % 4) % 4 ≠ 0) from by omega)]
    dsimp only
    rw [hmods, hmods2, hmods3, hh1, hh2]
    congr 1
    rw [lor_shiftLeft, Nat.shiftLeft_shiftLeft, ← Nat.lor_assoc]
  · intro h1 h2 hodd
    have ho1 : 0x05000000 ≤ addr - 1 := by omega
    have ho2 : addr - 1 ≤ 0x050003FF := by omega
    have hrmap := map_address_palette m (addr - 1) ho1 ho2
    have hrb1 : m.read_byte (addr - 1) = m.palette (addr - 1 - 0x05000000) % 256 :=
      read_byte_palette m (addr - 1) ho1 ho2
    have hrb2 : m.read_byte (addr - 1 + 1) = m.palette (addr - 1 - 0x05000000 + 1) % 256 := by
      rw [show addr - 1 + 1 = addr from by omega, read_byte_palette m addr h1 h2,
        show addr - 0x05000000 = addr - 1 - 0x05000000 + 1 from by omega]
    unfold Memory.read_half
    rw [if_pos (show addr % 2 ≠ 0 from by omega),
      if_neg (show ¬((addr - 1) % 2 ≠ 0) from by omega),
      show addr - addr % 2 = addr - 1 from by omega, hrmap, hrb1, hrb2, hodd]
    simp
  · intro h1 h2 hodd
    have ho1 : 0x07000000 ≤ addr - 1 := by omega
    have ho2 : addr - 1 ≤ 0x070003FF := by omega
    have hrmap := map_address_oam m (addr - 1) ho1 ho2
    have hrb1 : m.read_byte (addr - 1) = m.oam (addr - 1 - 0x07000000) % 256 :=
      read_byte_oam m (addr - 1) ho1 ho2
    have hrb2 : m.read_byte (addr - 1 + 1) = m.oam (addr - 1 - 0x07000000 + 1) % 256 := by
      rw [show addr - 1 + 1 = addr from by omega, read_byte_oam m addr h1 h2,
        show addr - 0x07000000 = addr - 1 - 0x07000000 + 1 from by omega]
    unfold Memory.read_half
    rw [if_pos (show addr % 2 ≠ 0 from by omega),
      if_neg (show ¬((addr - 1) % 2 ≠ 0) from by omega),
      show addr - addr % 2 = addr - 1 from by omega, hrmap, hrb1, hrb2, hodd]
    simp
  · intro h1 h2 hodd
    have hrmap := map_address_wram m (addr - 1) (by omega) (by omega)
    unfold Memory.read_half
    rw [if_pos (show addr % 2 ≠ 0 from by omega),
      show addr - addr % 2 = addr - 1 from by omega, hrmap, hodd]
    simp only [show (8 * 1 : Nat) = 8 from rfl]
    rw [if_neg (by simp), if_neg (by simp), if_neg (by simp)]
    exact rotr16_bytes _ _ (read_byte_lt m addr) (read_byte_lt m (addr + 1))
  · intro h1 h2
    have e1 : (addr + 1) % 4294967296 = addr + 1 := Nat.mod_eq_of_lt (by omega)
    have e2 : (addr + 2) % 4294967296 = addr + 2 := Nat.mod_eq_of_lt (by omega)
    have e3 : (addr + 3) % 4294967296 = addr + 3 := Nat.mod_eq_of_lt (by omega)
    have d1 : addr - 0x02000000 ≠ addr - 0x02000000 + 1 := by omega
    have d2 : addr - 0x02000000 ≠ addr - 0x02000000 + 2 := by omega
    have d3 : addr - 0x02000000 ≠ addr - 0x02000000 + 3 := by omega
    have d4 : addr - 0x02000000 + 1 ≠ addr - 0x02000000 + 2 := by omega
    have d5 : addr - 0x02000000 + 1 ≠ addr - 0x02000000 + 3 := by omega
    have d6 : addr - 0x02000000 + 2 ≠ addr - 0x02000000 + 3 := by omega
    have w0 : ∀ mm : Memory, mm.map_address addr = (MemoryRegion.Wram, addr - 0x02000000) :=
      fun mm => map_address_wram mm addr h1 (by omega)
    have w1 : ∀ mm : Memory,
        mm.map_address (addr + 1) = (MemoryRegion.Wram, addr - 0x02000000 + 1) := fun mm => by
      rw [map_address_wram mm (addr + 1) (by omega) (by omega),
        show addr + 1 - 0x02000000 = addr - 0x02000000 + 1 from by omega]
    have w2 : ∀ mm : Memory,
        mm.map_address (addr + 2) = (MemoryRegion.Wram, addr - 0x02000000 + 2) := fun mm => by
      rw [map_address_wram mm (addr + 2) (by omega) (by omega),
        show addr + 2 - 0x02000000 = addr - 0x02000000 + 2 from by omega]
    have w3 : ∀ mm : Memory,
        mm.map_address (addr + 3) = (MemoryRegion.Wram, addr - 0x02000000 + 3) := fun mm => by
      rw [map_address_wram mm (addr + 3) (by omega) (by omega),
        show addr + 3 - 0x02000000 = addr - 0x02000000 + 3 from by omega]
    refine ⟨?_, ?_, ?_, ?_⟩
    · simp only [Memory.write_word, Memory.write_byte_internal, e1, e2, e3, w0, w1, w2, w3, upd]
      rw [if_pos trivial, if_neg d3, if_neg d2, if_neg d1]
      omega
    · simp only [Memory.write_word, Memory.write_byte_internal, e1, e2, e3, w0, w1, w2, w3, upd]
      rw [if_pos trivial, if_neg d5, if_neg d4]
      omega
    · simp only [Memory.write_word, Memory.write_byte_internal, e1, e2, e3, w0, w1, w2, w3, upd]
      rw [if_pos trivial, if_neg d6]
      omega
    · simp only [Memory.write_word, Memory.write_byte_internal, e1, e2, e3, w0, w1, w2, w3, upd]
      rw [if_pos trivial]
      omega

/-- C7 witness: at the odd WRAM address 0x02000001 the word read follows
the aligned-rotate rule while the half-word read returns the swapped bytes
at 0x02000001 and 0x02000002. -/
theorem unaligned_access_behavior_witness :
    (0x02000001 : Nat) < 4294967296 ∧ (0x02000001 : Nat) % 4 ≠ 0 ∧
    mem7.read_word 0x02000001
      = rotr32 (mem7.read_word (0x02000001 - 0x02000001 % 4)) (8 * (0x02000001 % 4)) ∧
    mem7.read_half 0x02000001
      = mem7.read_byte (0x02000001 + 1) ||| (mem7.read_byte 0x02000001) <<< 8 := by
  refine ⟨by decide, by decide, ?_, ?_⟩
  · exact (unaligned_access_behavior mem7 0x02000001 0).1 (by decide) (by decide)
  · exact (unaligned_access_behavior mem7 0x02000001 0).2.2.2.1 (by decide) (by decide)
      (by decide)

/-- C8: a byte write into the VRAM or palette region stores the byte into
both bytes of the containing aligned half-word and changes nothing else; a
byte write into the OAM region leaves the memory unchanged. -/
theorem byte_write_duplication (m : Memory) (addr v off : Nat) (hv : v < 256) :
    ((m.map_address addr).1 = MemoryRegion.Oam → m.write_byte addr v = m) ∧
    (m.map_address addr = (MemoryRegion.Vram, off) →
      ((m.write_byte addr v).vram (off - off % 2) = v ∧
       (m.write_byte addr v).vram (off - off % 2 + 1) = v ∧
       (∀ j, j ≠ off - off % 2 → j ≠ off - off % 2 + 1 →
         (m.write_byte addr v).vram j = m.vram j) ∧
       (m.write_byte addr v).palette = m.palette ∧
       (m.write_byte addr v).wram = m.wram ∧
       (m.write_byte addr v).iwram = m.iwram ∧
       (m.write_byte addr v).oam = m.oam ∧
       (m.write_byte addr v).ioregs = m.ioregs ∧
       (m.write_byte addr v).bios = m.bios ∧
       (m.write_byte addr v).rom = m.rom ∧
       (m.write_byte addr v).waitcnt = m.waitcnt ∧
       (m.write_byte addr v).interrupt = m.interrupt)) ∧
    (m.map_address addr = (MemoryRegion.Palette, off) →
      ((m.write_byte addr v).palette (off - off % 2) = v ∧
       (m.write_byte addr v).palette (off - off % 2 + 1) = v ∧
       (∀ j, j ≠ off - off % 2 → j ≠ off - off % 2 + 1 →
         (m.write_byte addr v).palette j = m.palette j) ∧
       (m.write_byte addr v).vram = m.vram ∧
       (m.write_byte addr v).wram = m.wram ∧
       (m.write_byte addr v).iwram = m.iwram ∧
       (m.write_byte addr v).oam = m.oam ∧
       (m.write_byte addr v).ioregs = m.ioregs ∧
       (m.write_byte addr v).bios = m.bios ∧
       (m.write_byte addr v).rom = m.rom ∧
       (m.write_byte addr v).waitcnt = m.waitcnt ∧
       (m.write_byte addr v).interrupt = m.interrupt)) := by
  have hmod : v % 256 = v := Nat.mod_eq_of_lt hv
  have hne : off - off % 2 ≠ off - off % 2 + 1 := by omega
  refine ⟨?_, ?_, ?_⟩
  · intro h
    simp [Memory.write_byte, h]
  · intro h
    refine ⟨by simp [Memory.write_byte, h, hmod, upd, hne, dup_lo v hv],
      by simp [Memory.write_byte, h, hmod, upd, hne, dup_hi v hv],
      fun j hj1 hj2 => by simp [Memory.write_byte, h, upd, hj1, hj2],
      ?_, ?_, ?_, ?_, ?_, ?_, ?_, ?_, ?_⟩ <;>
      simp [Memory.write_byte, h]
  · intro h
    refine ⟨by simp [Memory.write_byte, h, hmod, upd, hne, dup_lo v hv],
      by simp [Memory.write_byte, h, hmod, upd, hne, dup_hi v hv],
      fun j hj1 hj2 => by simp [Memory.write_byte, h, upd, hj1, hj2],
      ?_, ?_, ?_, ?_, ?_, ?_, ?_, ?_, ?_⟩ <;>
      simp [Memory.write_byte, h]

/-- C8 witness: writing byte 0x7F at the VRAM address 0x06000003 (offset 3)
stores 0x7F into both vram[2] and vram[3]. -/
theorem byte_write_duplication_witness :
    (0x7F : Nat) < 256 ∧
    Memory.new.map_address 0x06000003 = (MemoryRegion.Vram, 3) ∧
    (Memory.new.write_byte 0x06000003 0x7F).vram 2 = 0x7F ∧
    (Memory.new.write_byte 0x06000003 0x7F).vram 3 = 0x7F := by
  have h := (byte_write_duplication Memory.new 0x06000003 0x7F 3 (by decide)).2.1 (by decide)
  exact ⟨by decide, by decide, h.1, h.2.1⟩

/-- C10 witness: with the Z flag set, the Thumb conditional branch with
condition EQ to a half-word-aligned target still leaves PC mod 4 = 0, as
does a BL suffix. -/
theorem set_pc_word_aligns_witness :
    cpuZ.check_condition (((0x0005 : Nat) >>> 8) &&& 0xF) = true ∧
    (cpuZ.set_pc 5).r 15 % 4 = 0 ∧
    (cpuZ.thumb_branch_cond 0x0005 0x02000002).1.r 15 % 4 = 0 ∧
    (cpuZ.thumb_bl_suffix 0x0005 0x02000002).1.r 15 % 4 = 0 := by
  have h := set_pc_word_aligns cpuZ 5 0x0005 0x02000002
  exact ⟨by decide, h.1, h.2.2.1 (by decide), h.2.2.2⟩

end Rgba
